import Mathlib

/-!
# Verification of the OPAQUE protocol core (`src/src/opaque.rs`)

A shallow embedding of the OPAQUE registration and login drivers from
`src/src/opaque.rs`, together with models of the collaborator modules the
drivers call into (`errors`, `oprf`, `rkr_encryption`, `key_exchange`,
`keypair`, `group`), which are not part of the sources at hand and are
therefore modelled from the specification's contracts.

Byte strings are `List Nat`; machine widths never matter for the properties
proved here (no arithmetic overflows occur in the embedded code).  The
pluggable primitives (Group, AEAD, KDF, hash, slow hash, key pairs, Diffie-
Hellman combination) are bundled in a `Primitives` structure, mirroring the
Rust generic parameters `Grp : Group`, `Aead`, `KeyFormat : KeyPair` and the
`hkdf`/`sha2` crates.  A small executable instance (`toyP`) is used to
evaluate the embedded code on concrete inputs.
-/

/-- Byte strings, as in the Rust `&[u8]` / `Vec<u8>`. -/
abbrev Bytes := List Nat

deriving instance DecidableEq for Except

/-- Modelled from the spec: the internal error kinds of the library
(spec section 7 taxonomy), together with the variants referenced by name in
`src/src/opaque.rs` (`DecryptionHmacError`, `InvalidLoginError`,
`KeyExchangeMacValidationError`, `EncryptionError`, `HkdfError`,
`SlowHashError`, and the `InvalidPublicKey` kind produced by
`KeyPair::check_public_key`). -/
inductive PakeError where
  | HkdfError
  | SlowHashError
  | InvalidPublicKeyError
  | DecryptionHmacError
  | InvalidLoginError
  | KeyExchangeMacValidationError
  | EncryptionError
deriving DecidableEq, Repr, Inhabited

/-- Modelled from the spec: the public error type of the protocol functions.
`SerializationError` is the wrong-length / bad-encoding kind produced by the
deserializers; `VerificationError` wraps a `PakeError`, which is how the
`?` operator converts `PakeError` values in `src/src/opaque.rs` (see the
pattern match on `ProtocolError::VerificationError(PakeError::..)` at
`ServerLogin::finish`). -/
inductive ProtocolError where
  | SerializationError
  | VerificationError (e : PakeError)
deriving DecidableEq, Repr, Inhabited

/-- The `From<PakeError> for ProtocolError` conversion applied by `?`. -/
def PakeError.toProtocol (e : PakeError) : ProtocolError :=
  ProtocolError.VerificationError e

/-- The result of running a Rust function that may also panic (Rust slicing
`&b[..n]` and `GenericArray::from_slice` abort on out-of-range lengths
rather than returning an error). -/
inductive Outcome (α : Type) where
  | ok (a : α)
  | err (e : ProtocolError)
  | panic
deriving DecidableEq, Repr, Inhabited

/-- Lift an error-returning computation into `Outcome`. -/
def liftE {α : Type} : Except ProtocolError α → Outcome α
  | Except.ok a => Outcome.ok a
  | Except.error e => Outcome.err e

/-- Sequencing of possibly-panicking computations. -/
def Outcome.bind {α β : Type} : Outcome α → (α → Outcome β) → Outcome β
  | Outcome.ok a, f => f a
  | Outcome.err e, _ => Outcome.err e
  | Outcome.panic, _ => Outcome.panic

/-- `GenericArray::from_slice`: panics unless the slice has exactly the
expected length. -/
def gaFromSlice (n : Nat) (b : Bytes) : Outcome Bytes :=
  if b.length = n then Outcome.ok b else Outcome.panic

/-- Rust slicing `&b[..n]`: panics when `n` exceeds the length. -/
def sliceTo (b : Bytes) (n : Nat) : Outcome Bytes :=
  if n ≤ b.length then Outcome.ok (b.take n) else Outcome.panic

/-- Rust slicing `&b[n..]`: panics when `n` exceeds the length. -/
def sliceFrom (b : Bytes) (n : Nat) : Outcome Bytes :=
  if n ≤ b.length then Outcome.ok (b.drop n) else Outcome.panic

/-- Rust slicing `&b[a..b]`: panics unless `a ≤ b ≤ length`. -/
def sliceRange (b : Bytes) (lo hi : Nat) : Outcome Bytes :=
  if lo ≤ hi ∧ hi ≤ b.length then Outcome.ok ((b.take hi).drop lo) else Outcome.panic

/-- Modelled from the spec: `errors::utils::check_slice_size` — deserializers
validate exact lengths, any mismatch yields `SerializationError` (the
context-name argument of the Rust function is dropped, it only decorates the
error message). -/
def check_slice_size (b : Bytes) (n : Nat) : Except ProtocolError Bytes :=
  if b.length = n then Except.ok b else Except.error ProtocolError.SerializationError

/-- `const DERIVED_KEY_LEN: usize = 32` from `src/src/opaque.rs`. -/
def DERIVED_KEY_LEN : Nat := 32

/-- `const STR_ENVU: &[u8] = b"EnvU"` from `src/src/opaque.rs`
(ASCII bytes of `EnvU`). -/
def STR_ENVU : Bytes := [69, 110, 118, 85]

/-- The pluggable primitives the drivers are generic over: the `Group` trait
(element/scalar arithmetic and serialization), the `KeyPair` trait
(`Repr` serialization and public-key validation), the AEAD, HMAC, HKDF and
hash primitives used by the envelope, the slow hash, and the randomness
suppliers drawn from the caller's RNG of type `R`.  Field names follow the
Rust trait methods.  `gmul` is scalar multiplication `elem · scalar`,
`sinv` is scalar inversion, `dh` is the Diffie-Hellman combination of a
serialized secret key with a serialized public key used by the AKE. -/
structure Primitives (E S Rp R : Type) where
  elemLen : Nat
  scalarLen : Nat
  keyLen : Nat
  nonceLen : Nat
  aeadTagLen : Nat
  hmacTagLen : Nat
  akeNonceLen : Nat
  hashLen : Nat
  elemToBytes : E → Bytes
  fromElementSlice : Bytes → Except ProtocolError E
  scalarAsBytes : S → Bytes
  fromScalarSlice : Bytes → Except ProtocolError S
  gmul : E → S → E
  sinv : S → S
  reprToArr : Rp → Bytes
  reprFromBytes : Bytes → Except ProtocolError Rp
  pkValid : Rp → Bool
  generateRandom : R → (Rp × Rp) × R
  randomBytes : Nat → R → Bytes × R
  randomScalar : R → S × R
  hashToCurve : Bytes → E
  hash : Bytes → Bytes
  slowHash : Bytes → Option Bytes
  hkdfExtract : Bytes → Bytes
  hkdfExpand : Bytes → Bytes → Nat → Option Bytes
  aeadSeal : Bytes → Bytes → Bytes → Bytes → Bytes
  aeadOpen : Bytes → Bytes → Bytes → Bytes → Option Bytes
  hmac : Bytes → Bytes → Bytes
  dh : Bytes → Bytes → Bytes

section Model

variable {E S Rp R : Type}

/-- `KeyPair::check_public_key`, modelled from the spec: rejects identity and
non-subgroup points with the `InvalidPublicKey` kind. -/
def check_public_key (P : Primitives E S Rp R) (k : Rp) : Except ProtocolError Rp :=
  if P.pkValid k then Except.ok k
  else Except.error (ProtocolError.VerificationError PakeError.InvalidPublicKeyError)

-- ==========================================================================
-- Envelope (rkr_encryption.rs), modelled from the spec, section 4.3
-- ==========================================================================

/-- The RKR envelope: `(nonce, AEAD-ciphertext, HMAC tag)`. -/
structure RKRCiphertext where
  nonce : Bytes
  ct : Bytes
  tag : Bytes
deriving DecidableEq, Repr, Inhabited

/-- `RKRCiphertext::rkr_with_nonce_size`, modelled from the spec:
`NonceLen + plaintext_len + AEAD.TagLen + HMAC.TagLen` where the plaintext is
the serialized client static secret key (`KeyLen` bytes). -/
def rkrWithNonceSize (P : Primitives E S Rp R) : Nat :=
  P.nonceLen + (P.keyLen + P.aeadTagLen) + P.hmacTagLen

/-- Envelope serialization: `nonce || ct || tag`. -/
def RKRCiphertext.toBytes (c : RKRCiphertext) : Bytes :=
  c.nonce ++ c.ct ++ c.tag

/-- `RKRCiphertext::from_bytes`, modelled from the spec: exact-length check,
then split into nonce, ciphertext and tag. -/
def rkrFromBytes (P : Primitives E S Rp R) (b : Bytes) : Except ProtocolError RKRCiphertext :=
  if b.length = rkrWithNonceSize P then
    Except.ok
      { nonce := b.take P.nonceLen
        ct := (b.drop P.nonceLen).take (P.keyLen + P.aeadTagLen)
        tag := b.drop (P.nonceLen + (P.keyLen + P.aeadTagLen)) }
  else Except.error ProtocolError.SerializationError

/-- `RKRCiphertext::encrypt`, modelled from the spec:
random nonce, AEAD seal, then an outer HMAC over `nonce || ct || ad`. -/
def rkrEncrypt (P : Primitives E S Rp R) (encKey macKey pt ad : Bytes) (rng : R) :
    RKRCiphertext × R :=
  let (nonce, rng1) := P.randomBytes P.nonceLen rng
  let ct := P.aeadSeal encKey nonce pt ad
  let tag := P.hmac macKey (nonce ++ ct ++ ad)
  ({ nonce := nonce, ct := ct, tag := tag }, rng1)

/-- `RKRCiphertext::decrypt`, modelled from the spec: verify the outer HMAC,
on mismatch fail with `DecryptionHmacError`; then AEAD-open, any failure
yields the same error. -/
def rkrDecrypt (P : Primitives E S Rp R) (c : RKRCiphertext) (encKey macKey ad : Bytes) :
    Except PakeError Bytes :=
  if c.tag = P.hmac macKey (c.nonce ++ c.ct ++ ad) then
    match P.aeadOpen encKey c.nonce c.ct ad with
    | some pt => Except.ok pt
    | none => Except.error PakeError.DecryptionHmacError
  else Except.error PakeError.DecryptionHmacError

-- ==========================================================================
-- OPRF (oprf.rs), modelled from the spec, section 4.2
-- ==========================================================================

/-- `oprf::OprfClientBytes`: the blinded element and the blinding factor. -/
structure OprfClientBytes (E S : Type) where
  alpha : E
  blinding_factor : S
deriving DecidableEq, Repr

/-- `oprf::generate_oprf1` (blind), modelled from the spec:
`r ← random_scalar(rng); t ← hash_to_curve(pepper || pw); α ← t · r`.
The RNG is threaded explicitly, mirroring the Rust `&mut R` parameter. -/
def generate_oprf1 (P : Primitives E S Rp R) (password : Bytes) (pepper : Option Bytes)
    (rng : R) : Except ProtocolError (OprfClientBytes E S) × R :=
  let (r, rng1) := P.randomScalar rng
  let t := P.hashToCurve ((pepper.getD []) ++ password)
  (Except.ok { alpha := P.gmul t r, blinding_factor := r }, rng1)

/-- `oprf::generate_oprf2` (evaluate), modelled from the spec: `β := α · k`.
The subgroup check on `α` is enforced by deserialization, so a typed element
is already subgroup-valid and evaluation always succeeds. -/
def generate_oprf2 (P : Primitives E S Rp R) (alpha : E) (k : S) : Except ProtocolError E :=
  Except.ok (P.gmul alpha k)

/-- `oprf::generate_oprf3` (finalize), modelled from the spec:
`n ← β · r⁻¹; y ← SlowHash(H(pw || serialize(n)))`; a slow-hash failure is
the `SlowHashError` kind (see `src/src/slow_hash.rs`). -/
def generate_oprf3 (P : Primitives E S Rp R) (password : Bytes) (beta : E)
    (blinding_factor : S) : Except PakeError Bytes :=
  let n := P.gmul beta (P.sinv blinding_factor)
  match P.slowHash (P.hash (password ++ P.elemToBytes n)) with
  | some y => Except.ok y
  | none => Except.error PakeError.SlowHashError

-- ==========================================================================
-- AKE sub-protocol (key_exchange.rs), modelled from the spec
-- ==========================================================================

/-- Modelled from the spec: the first AKE flight — the client's nonce and
ephemeral public key (serialized). -/
structure KE1Message where
  client_nonce : Bytes
  client_e_pk : Bytes
deriving DecidableEq, Repr, Inhabited

/-- Modelled from the spec: the client's AKE state after KE1 — the serialized
ephemeral secret key and the client nonce. -/
structure KE1State where
  client_e_sk : Bytes
  client_nonce : Bytes
deriving DecidableEq, Repr, Inhabited

/-- Modelled from the spec: the second AKE flight — server nonce, serialized
server ephemeral public key, and the server's transcript MAC. -/
structure KE2Message where
  server_nonce : Bytes
  server_e_pk : Bytes
  mac : Bytes
deriving DecidableEq, Repr, Inhabited

/-- Modelled from the spec: the server's AKE state after KE2 — the shared
session secret and the MAC it expects from the client in KE3. -/
structure KE2State where
  shared_secret : Bytes
  expected_mac : Bytes
deriving DecidableEq, Repr, Inhabited

/-- Modelled from the spec: the third AKE flight — the client's MAC. -/
structure KE3Message where
  mac : Bytes
deriving DecidableEq, Repr, Inhabited

/-- Modelled from the spec: the client's AKE state after KE3, carrying the
shared session secret. -/
structure KE3State where
  shared_secret : Bytes
deriving DecidableEq, Repr, Inhabited

/-- `KE1_STATE_LEN`: serialized length of `KE1State`. -/
def ke1StateLen (P : Primitives E S Rp R) : Nat := P.keyLen + P.akeNonceLen

/-- `KE1_MSG_LEN`: serialized length of `KE1Message`. -/
def ke1MessageLen (P : Primitives E S Rp R) : Nat := P.akeNonceLen + P.keyLen

/-- `KE2_MESSAGE_LEN`: serialized length of `KE2Message`. -/
def ke2MessageLen (P : Primitives E S Rp R) : Nat := P.akeNonceLen + P.keyLen + P.hmacTagLen

/-- `KE2_STATE_LEN`: serialized length of `KE2State`. -/
def ke2StateLen (P : Primitives E S Rp R) : Nat := P.hashLen + P.hmacTagLen

/-- `KE3_MESSAGE_LEN`: serialized length of `KE3Message`. -/
def ke3MessageLen (P : Primitives E S Rp R) : Nat := P.hmacTagLen

/-- Serialization of `KE1Message`: `client_nonce || client_e_pk`. -/
def KE1Message.toBytes (m : KE1Message) : Bytes := m.client_nonce ++ m.client_e_pk

/-- Modelled from the spec: `KE1Message::try_from` validates the exact length
and splits the fields. -/
def KE1Message.tryFrom (P : Primitives E S Rp R) (b : Bytes) : Except ProtocolError KE1Message :=
  if b.length = ke1MessageLen P then
    Except.ok { client_nonce := b.take P.akeNonceLen, client_e_pk := b.drop P.akeNonceLen }
  else Except.error ProtocolError.SerializationError

/-- Serialization of `KE1State`: `client_e_sk || client_nonce`. -/
def KE1State.toBytes (st : KE1State) : Bytes := st.client_e_sk ++ st.client_nonce

/-- Modelled from the spec: `KE1State::try_from` validates the exact length
and splits the fields. -/
def KE1State.tryFrom (P : Primitives E S Rp R) (b : Bytes) : Except ProtocolError KE1State :=
  if b.length = ke1StateLen P then
    Except.ok { client_e_sk := b.take P.keyLen, client_nonce := b.drop P.keyLen }
  else Except.error ProtocolError.SerializationError

/-- Serialization of `KE2Message`: `server_nonce || server_e_pk || mac`. -/
def KE2Message.toBytes (m : KE2Message) : Bytes := m.server_nonce ++ m.server_e_pk ++ m.mac

/-- Modelled from the spec: `KE2Message::try_from` validates the exact length
and splits the fields. -/
def KE2Message.tryFrom (P : Primitives E S Rp R) (b : Bytes) : Except ProtocolError KE2Message :=
  if b.length = ke2MessageLen P then
    Except.ok
      { server_nonce := b.take P.akeNonceLen
        server_e_pk := (b.drop P.akeNonceLen).take P.keyLen
        mac := b.drop (P.akeNonceLen + P.keyLen) }
  else Except.error ProtocolError.SerializationError

/-- Serialization of `KE2State`: `shared_secret || expected_mac`. -/
def KE2State.toBytes (st : KE2State) : Bytes := st.shared_secret ++ st.expected_mac

/-- Modelled from the spec: `KE2State::try_from` validates the exact length
and splits the fields. -/
def KE2State.tryFrom (P : Primitives E S Rp R) (b : Bytes) : Except ProtocolError KE2State :=
  if b.length = ke2StateLen P then
    Except.ok { shared_secret := b.take P.hashLen, expected_mac := b.drop P.hashLen }
  else Except.error ProtocolError.SerializationError

/-- Serialization of `KE3Message`. -/
def KE3Message.toBytes (m : KE3Message) : Bytes := m.mac

/-- Modelled from the spec: `KE3Message::try_from` validates the exact
length. -/
def KE3Message.tryFrom (P : Primitives E S Rp R) (b : Bytes) : Except ProtocolError KE3Message :=
  if b.length = ke3MessageLen P then Except.ok { mac := b }
  else Except.error ProtocolError.SerializationError

/-- Modelled from the spec: the AKE session key material, a hash of the three
Diffie-Hellman combinations (ephemeral-ephemeral, server-static with client
ephemeral, client-static with server ephemeral). -/
def akeKm (P : Primitives E S Rp R) (dh1 dh2 dh3 : Bytes) : Bytes :=
  P.hash (dh1 ++ dh2 ++ dh3)

/-- Modelled from the spec: `key_exchange::generate_ke1` — draw an ephemeral
key pair and a client nonce; the state keeps the serialized secret key and
the nonce, the message carries the nonce and the serialized public key.
The `l1_component` argument (the serialized `α`) is carried by the caller's
transcript, not by this state. -/
def generate_ke1 (P : Primitives E S Rp R) (l1_component : Bytes) (rng : R) :
    Except ProtocolError (KE1State × KE1Message) × R :=
  let ((eSk, ePk), rng1) := P.generateRandom rng
  let (nonce, rng2) := P.randomBytes P.akeNonceLen rng1
  let _ := l1_component
  (Except.ok
      ({ client_e_sk := P.reprToArr eSk, client_nonce := nonce },
       { client_nonce := nonce, client_e_pk := P.reprToArr ePk }), rng2)

/-- Modelled from the spec: `key_exchange::generate_ke2` — draw a server
ephemeral key pair and nonce, derive the key material from the three DH
combinations, MAC the transcript (which binds the nonces and the
`l2_component`, i.e. `β` and the envelope), and keep the shared secret plus
the MAC expected from the client. -/
def generate_ke2 (P : Primitives E S Rp R) (rng : R) (l1_bytes l2_component : Bytes)
    (client_e_pk : Bytes) (client_s_pk : Rp) (server_s_sk : Rp) (client_nonce : Bytes) :
    Except ProtocolError (KE2State × KE2Message) :=
  let ((serverESk, serverEPk), rng1) := P.generateRandom rng
  let (server_nonce, _rng2) := P.randomBytes P.akeNonceLen rng1
  let _ := l1_bytes
  let km := akeKm P
    (P.dh (P.reprToArr serverESk) client_e_pk)
    (P.dh (P.reprToArr server_s_sk) client_e_pk)
    (P.dh (P.reprToArr serverESk) (P.reprToArr client_s_pk))
  let transcript := client_nonce ++ server_nonce ++ l2_component
  let server_mac := P.hmac km (0 :: transcript)
  let client_mac := P.hmac km (1 :: transcript)
  let shared := P.hash (2 :: (km ++ transcript))
  Except.ok
    ({ shared_secret := shared, expected_mac := client_mac },
     { server_nonce := server_nonce, server_e_pk := P.reprToArr serverEPk, mac := server_mac })

/-- Modelled from the spec: `key_exchange::generate_ke3` — the client derives
the same key material, verifies the server's transcript MAC (failure is the
`KeyExchangeMacValidationError` kind), and answers with its own MAC plus the
shared secret. -/
def generate_ke3 (P : Primitives E S Rp R) (l2_bytes : Bytes) (ke2m : KE2Message)
    (ke1st : KE1State) (server_s_pk : Rp) (client_s_sk : Rp) :
    Except ProtocolError (KE3State × KE3Message) :=
  let km := akeKm P
    (P.dh ke1st.client_e_sk ke2m.server_e_pk)
    (P.dh ke1st.client_e_sk (P.reprToArr server_s_pk))
    (P.dh (P.reprToArr client_s_sk) ke2m.server_e_pk)
  let transcript := ke1st.client_nonce ++ ke2m.server_nonce ++ l2_bytes
  if ke2m.mac = P.hmac km (0 :: transcript) then
    Except.ok ({ shared_secret := P.hash (2 :: (km ++ transcript)) },
               { mac := P.hmac km (1 :: transcript) })
  else Except.error (ProtocolError.VerificationError PakeError.KeyExchangeMacValidationError)

/-- Modelled from the spec: `key_exchange::finish_ke` — the server checks the
client's MAC against its KE2 state; on mismatch the failure is the
`KeyExchangeMacValidationError` kind, on success the shared secret is
returned. -/
def finish_ke (m : KE3Message) (st : KE2State) : Except ProtocolError Bytes :=
  if m.mac = st.expected_mac then Except.ok st.shared_secret
  else Except.error (ProtocolError.VerificationError PakeError.KeyExchangeMacValidationError)

-- ==========================================================================
-- Messages (src/src/opaque.rs)
-- ==========================================================================

/-- `RegisterFirstMessage<Grp>`: the blinded password element `alpha`. -/
structure RegisterFirstMessage (E : Type) where
  alpha : E
deriving DecidableEq, Repr

/-- `RegisterFirstMessage::to_bytes`: `self.alpha.to_bytes()`. -/
def RegisterFirstMessage.toBytes (P : Primitives E S Rp R) (m : RegisterFirstMessage E) :
    Bytes :=
  P.elemToBytes m.alpha

/-- `RegisterFirstMessage::try_from` (src/src/opaque.rs lines 46-55):
`GenericArray::from_slice(first_message_bytes)` — which panics on any length
other than `ElemLen` — followed by the subgroup-checked
`Grp::from_element_slice`. -/
def RegisterFirstMessage.tryFrom (P : Primitives E S Rp R) (b : Bytes) :
    Outcome (RegisterFirstMessage E) :=
  Outcome.bind (gaFromSlice P.elemLen b) fun arr =>
    liftE ((P.fromElementSlice arr).map fun alpha => { alpha := alpha })

/-- `RegisterSecondMessage<Grp>`: the server's OPRF output `beta`. -/
structure RegisterSecondMessage (E : Type) where
  beta : E
deriving DecidableEq, Repr

/-- `RegisterSecondMessage::to_bytes`. -/
def RegisterSecondMessage.toBytes (P : Primitives E S Rp R) (m : RegisterSecondMessage E) :
    Bytes :=
  P.elemToBytes m.beta

/-- `RegisterSecondMessage::try_from` (lines 76-87): `check_slice_size` to
`ElemLen`, then the subgroup-checked `Grp::from_element_slice`. -/
def RegisterSecondMessage.tryFrom (P : Primitives E S Rp R) (b : Bytes) :
    Outcome (RegisterSecondMessage E) :=
  Outcome.bind (liftE (check_slice_size b P.elemLen)) fun checked =>
    liftE ((P.fromElementSlice checked).map fun beta => { beta := beta })

/-- `RegisterThirdMessage<Aead, KeyFormat>`: the client's envelope and static
public key. -/
structure RegisterThirdMessage (Rp : Type) where
  envelope : RKRCiphertext
  client_s_pk : Rp
deriving DecidableEq, Repr, Inhabited

/-- `RegisterThirdMessage::to_bytes`: `envelope || client_s_pk`. -/
def RegisterThirdMessage.toBytes (P : Primitives E S Rp R) (m : RegisterThirdMessage Rp) :
    Bytes :=
  m.envelope.toBytes ++ P.reprToArr m.client_s_pk

/-- `RegisterThirdMessage::try_from` (lines 129-141): `check_slice_size` to
`rkr_size + key_len`, deserialize the public key from the tail, validate it
with `KeyFormat::check_public_key`, then deserialize the envelope from the
head. -/
def RegisterThirdMessage.tryFrom (P : Primitives E S Rp R) (b : Bytes) :
    Outcome (RegisterThirdMessage Rp) :=
  Outcome.bind (liftE (check_slice_size b (rkrWithNonceSize P + P.keyLen))) fun checked =>
  Outcome.bind (liftE (P.reprFromBytes (checked.drop (rkrWithNonceSize P)))) fun upk =>
  Outcome.bind (liftE (check_public_key P upk)) fun client_s_pk =>
  Outcome.bind (liftE (rkrFromBytes P (checked.take (rkrWithNonceSize P)))) fun env =>
  Outcome.ok { envelope := env, client_s_pk := client_s_pk }

/-- `LoginFirstMessage<Grp>`: the blinded password element and the first AKE
flight. -/
structure LoginFirstMessage (E : Type) where
  alpha : E
  ke1_message : KE1Message
deriving DecidableEq, Repr

/-- `LoginFirstMessage::to_bytes`: `alpha || ke1_message`. -/
def LoginFirstMessage.toBytes (P : Primitives E S Rp R) (m : LoginFirstMessage E) : Bytes :=
  P.elemToBytes m.alpha ++ m.ke1_message.toBytes

/-- `LoginFirstMessage::try_from` (lines 151-163): slices
`&first_message_bytes[..elem_len]` — which panics when the input is shorter
than `ElemLen` — then parses the element and the KE1 message from the
remainder. -/
def LoginFirstMessage.tryFrom (P : Primitives E S Rp R) (b : Bytes) :
    Outcome (LoginFirstMessage E) :=
  Outcome.bind (sliceTo b P.elemLen) fun arr =>
  Outcome.bind (liftE (P.fromElementSlice arr)) fun alpha =>
  Outcome.bind (liftE (KE1Message.tryFrom P (b.drop P.elemLen))) fun ke1m =>
  Outcome.ok { alpha := alpha, ke1_message := ke1m }

/-- `LoginSecondMessage<Aead, Grp>`: the server's OPRF output, the stored
envelope, and the second AKE flight. -/
structure LoginSecondMessage (E : Type) where
  beta : E
  envelope : RKRCiphertext
  ke2_message : KE2Message
deriving DecidableEq, Repr

/-- `LoginSecondMessage::to_bytes`: `beta || envelope || ke2_message`. -/
def LoginSecondMessage.toBytes (P : Primitives E S Rp R) (m : LoginSecondMessage E) : Bytes :=
  P.elemToBytes m.beta ++ m.envelope.toBytes ++ m.ke2_message.toBytes

/-- `LoginSecondMessage::try_from` (lines 207-231): `check_slice_size` to
`elem_len + cipher_len + KE2_MESSAGE_LEN`, then parse the three parts. -/
def LoginSecondMessage.tryFrom (P : Primitives E S Rp R) (b : Bytes) :
    Outcome (LoginSecondMessage E) :=
  Outcome.bind
    (liftE (check_slice_size b (P.elemLen + rkrWithNonceSize P + ke2MessageLen P)))
    fun checked =>
  Outcome.bind (liftE (P.fromElementSlice (checked.take P.elemLen))) fun beta =>
  Outcome.bind
    (liftE (rkrFromBytes P ((checked.drop P.elemLen).take (rkrWithNonceSize P))))
    fun env =>
  Outcome.bind
    (liftE (KE2Message.tryFrom P (checked.drop (P.elemLen + rkrWithNonceSize P))))
    fun ke2m =>
  Outcome.ok { beta := beta, envelope := env, ke2_message := ke2m }

/-- `LoginThirdMessage`: the third AKE flight. -/
structure LoginThirdMessage where
  ke3_message : KE3Message
deriving DecidableEq, Repr, Inhabited

/-- `LoginThirdMessage::to_bytes`. -/
def LoginThirdMessage.toBytes (m : LoginThirdMessage) : Bytes := m.ke3_message.toBytes

/-- `LoginThirdMessage::try_from` (lines 243-246). -/
def LoginThirdMessage.tryFrom (P : Primitives E S Rp R) (b : Bytes) :
    Outcome LoginThirdMessage :=
  Outcome.bind (liftE (KE3Message.tryFrom P b)) fun ke3m =>
  Outcome.ok { ke3_message := ke3m }

-- ==========================================================================
-- Registration driver (src/src/opaque.rs)
-- ==========================================================================

/-- `ClientRegistration<Aead, Grp>`: the blinding factor and the password
(the `PhantomData` marker is dropped). -/
structure ClientRegistration (S : Type) where
  blinding_factor : S
  password : Bytes
deriving DecidableEq, Repr

/-- `ClientRegistration::to_bytes` (lines 292-299):
`scalar_as_bytes(blinding_factor) || password`. -/
def ClientRegistration.toBytes (P : Primitives E S Rp R) (st : ClientRegistration S) :
    Bytes :=
  P.scalarAsBytes st.blinding_factor ++ st.password

/-- `ClientRegistration::try_from` (lines 272-284): slices
`&bytes[..scalar_len]` — panics on shorter input — parses the scalar and
keeps the rest as the password. -/
def ClientRegistration.tryFrom (P : Primitives E S Rp R) (b : Bytes) :
    Outcome (ClientRegistration S) :=
  Outcome.bind (sliceTo b P.scalarLen) fun bf =>
  Outcome.bind (liftE (P.fromScalarSlice bf)) fun blinding_factor =>
  Outcome.ok { blinding_factor := blinding_factor, password := b.drop P.scalarLen }

/-- `ClientRegistration::start` (lines 323-341): blind the password and keep
the blinding factor with the password. -/
def clientRegistrationStart (P : Primitives E S Rp R) (password : Bytes)
    (pepper : Option Bytes) (rng : R) :
    Except ProtocolError (RegisterFirstMessage E × ClientRegistration S) × R :=
  match generate_oprf1 P password pepper rng with
  | (Except.error e, rng1) => (Except.error e, rng1)
  | (Except.ok ocb, rng1) =>
      (Except.ok ({ alpha := ocb.alpha },
                  { blinding_factor := ocb.blinding_factor, password := password }), rng1)

/-- `get_password_derived_key` (lines 912-918): the OPRF finalization. -/
def get_password_derived_key (P : Primitives E S Rp R) (password : Bytes) (beta : E)
    (blinding_factor : S) : Except PakeError Bytes :=
  generate_oprf3 P password beta blinding_factor

/-- `ClientRegistration::finish` (lines 379-412): generate the client static
key pair, finalize the OPRF, HKDF-expand the password-derived key into
`okm` (96 bytes, info `"EnvU"`), split it into encryption key, HMAC key and
key-derivation key, seal the client static secret key into the envelope with
the server public key as associated data, and return the third message plus
the key-derivation (export) key. -/
def clientRegistrationFinish (P : Primitives E S Rp R) (self : ClientRegistration S)
    (r2 : RegisterSecondMessage E) (server_s_pk : Rp) (rng : R) :
    Except ProtocolError (RegisterThirdMessage Rp × Bytes) :=
  let ((cSk, cPk), rng1) := P.generateRandom rng
  match get_password_derived_key P self.password r2.beta self.blinding_factor with
  | Except.error e => Except.error e.toProtocol
  | Except.ok password_derived_key =>
    match P.hkdfExpand (P.hkdfExtract password_derived_key) STR_ENVU (3 * DERIVED_KEY_LEN) with
    | none => Except.error PakeError.HkdfError.toProtocol
    | some okm =>
      let encryption_key := okm.take DERIVED_KEY_LEN
      let hmac_key := (okm.drop DERIVED_KEY_LEN).take DERIVED_KEY_LEN
      let kd_key := okm.drop (2 * DERIVED_KEY_LEN)
      let (envelope, _rng2) :=
        rkrEncrypt P encryption_key hmac_key (P.reprToArr cSk) (P.reprToArr server_s_pk) rng1
      Except.ok ({ envelope := envelope, client_s_pk := cPk }, kd_key)

/-- `ServerRegistration<Aead, Grp, KeyFormat>`: the password file — optional
envelope and client static public key, plus the per-user OPRF key. -/
structure ServerRegistration (S Rp : Type) where
  envelope : Option RKRCiphertext
  client_s_pk : Option Rp
  oprf_key : S
deriving DecidableEq, Repr

/-- `ServerRegistration::to_bytes` (lines 508-519): the OPRF key, then the
public key if present, then the envelope if present. -/
def ServerRegistration.toBytes (P : Primitives E S Rp R) (st : ServerRegistration S Rp) :
    Bytes :=
  P.scalarAsBytes st.oprf_key ++
    (match st.client_s_pk with | some v => P.reprToArr v | none => []) ++
    (match st.envelope with | some v => v.toBytes | none => [])

/-- `ServerRegistration::try_from` (lines 462-494): a `scalar_len` input is
the pending form; otherwise `check_slice_size` to
`rkr_size + key_len + scalar_len`, then parse the OPRF key, the validated
client public key, and the envelope from the tail. -/
def ServerRegistration.tryFrom (P : Primitives E S Rp R) (b : Bytes) :
    Outcome (ServerRegistration S Rp) :=
  if b.length = P.scalarLen then
    liftE ((P.fromScalarSlice b).map fun k =>
      { oprf_key := k, client_s_pk := none, envelope := none })
  else
    Outcome.bind
      (liftE (check_slice_size b (rkrWithNonceSize P + P.keyLen + P.scalarLen)))
      fun checked =>
    Outcome.bind (liftE (P.fromScalarSlice (checked.take P.scalarLen))) fun oprf_key =>
    Outcome.bind
      (liftE (P.reprFromBytes ((checked.drop P.scalarLen).take P.keyLen)))
      fun upk =>
    Outcome.bind (liftE (check_public_key P upk)) fun client_s_pk =>
    Outcome.bind
      (liftE (rkrFromBytes P (checked.drop (checked.length - rkrWithNonceSize P))))
      fun env =>
    Outcome.ok { envelope := some env, client_s_pk := some client_s_pk, oprf_key := oprf_key }

/-- `ServerRegistration::start` (lines 543-561): draw a fresh OPRF key,
evaluate the blinded element, and keep the pending record. -/
def serverRegistrationStart (P : Primitives E S Rp R) (message : RegisterFirstMessage E)
    (rng : R) :
    Except ProtocolError (RegisterSecondMessage E × ServerRegistration S Rp) × R :=
  let (oprf_key, rng1) := P.randomScalar rng
  match generate_oprf2 P message.alpha oprf_key with
  | Except.error e => (Except.error e, rng1)
  | Except.ok beta =>
      (Except.ok ({ beta := beta },
                  { envelope := none, client_s_pk := none, oprf_key := oprf_key }), rng1)

/-- `ServerRegistration::finish` (lines 589-598): populate the envelope and
client public key from the third message, keeping the OPRF key. -/
def serverRegistrationFinish (self : ServerRegistration S Rp)
    (message : RegisterThirdMessage Rp) :
    Except ProtocolError (ServerRegistration S Rp) :=
  Except.ok
    { envelope := some message.envelope
      client_s_pk := some message.client_s_pk
      oprf_key := self.oprf_key }

-- ==========================================================================
-- Login driver (src/src/opaque.rs)
-- ==========================================================================

/-- `ClientLogin<Aead, Grp, KeyFormat>`: blinding factor, password, and KE1
state (the `PhantomData` markers are dropped). -/
structure ClientLogin (S : Type) where
  blinding_factor : S
  password : Bytes
  ke1_state : KE1State
deriving DecidableEq, Repr

/-- `ClientLogin::to_bytes` (lines 644-652):
`scalar || ke1_state || password`. -/
def ClientLogin.toBytes (P : Primitives E S Rp R) (st : ClientLogin S) : Bytes :=
  P.scalarAsBytes st.blinding_factor ++ st.ke1_state.toBytes ++ st.password

/-- `ClientLogin::try_from` (lines 622-635): slices `&bytes[..scalar_len]`
and `&bytes[scalar_len..scalar_len + KE1_STATE_LEN]` — both panic on
too-short input — and keeps the rest as the password. -/
def ClientLogin.tryFrom (P : Primitives E S Rp R) (b : Bytes) : Outcome (ClientLogin S) :=
  Outcome.bind (sliceTo b P.scalarLen) fun bf =>
  Outcome.bind (liftE (P.fromScalarSlice bf)) fun blinding_factor =>
  Outcome.bind (sliceRange b P.scalarLen (P.scalarLen + ke1StateLen P)) fun ke1b =>
  Outcome.bind (liftE (KE1State.tryFrom P ke1b)) fun ke1_state =>
  Outcome.ok
    { blinding_factor := blinding_factor
      password := b.drop (P.scalarLen + ke1StateLen P)
      ke1_state := ke1_state }

/-- `ClientLogin::start` (lines 685-710): blind the password, run
`generate_ke1` over the serialized `alpha`, and keep the blinding factor,
password and KE1 state. -/
def clientLoginStart (P : Primitives E S Rp R) (password : Bytes) (pepper : Option Bytes)
    (rng : R) : Except ProtocolError (LoginFirstMessage E × ClientLogin S) × R :=
  match generate_oprf1 P password pepper rng with
  | (Except.error e, rng1) => (Except.error e, rng1)
  | (Except.ok ocb, rng1) =>
    match generate_ke1 P (P.elemToBytes ocb.alpha) rng1 with
    | (Except.error e, rng2) => (Except.error e, rng2)
    | (Except.ok (ke1_state, ke1_message), rng2) =>
        (Except.ok ({ alpha := ocb.alpha, ke1_message := ke1_message },
                    { blinding_factor := ocb.blinding_factor
                      password := password
                      ke1_state := ke1_state }), rng2)

/-- `ClientLogin::finish` (lines 740-780): finalize the OPRF, HKDF-expand
into the three derived keys, decrypt the envelope (remapping
`DecryptionHmacError` to `InvalidLoginError`), parse the recovered client
static secret key, run `generate_ke3`, and return the third message, the
shared secret, and the key-derivation (export) key.  The
`_client_e_sk_rng : &mut R` parameter of the Rust function is never read,
which the embedding mirrors by ignoring `rng`. -/
def clientLoginFinish (P : Primitives E S Rp R) (self : ClientLogin S)
    (l2 : LoginSecondMessage E) (server_s_pk : Rp) (rng : R) :
    Except ProtocolError (LoginThirdMessage × Bytes × Bytes) :=
  let _ := rng
  let l2_bytes := P.elemToBytes l2.beta ++ l2.envelope.toBytes
  match get_password_derived_key P self.password l2.beta self.blinding_factor with
  | Except.error e => Except.error e.toProtocol
  | Except.ok password_derived_key =>
  match P.hkdfExpand (P.hkdfExtract password_derived_key) STR_ENVU (3 * DERIVED_KEY_LEN) with
  | none => Except.error PakeError.HkdfError.toProtocol
  | some okm =>
  let encryption_key := okm.take DERIVED_KEY_LEN
  let hmac_key := (okm.drop DERIVED_KEY_LEN).take DERIVED_KEY_LEN
  let kd_key := okm.drop (2 * DERIVED_KEY_LEN)
  match (rkrDecrypt P l2.envelope encryption_key hmac_key (P.reprToArr server_s_pk)).mapError
      (fun e => match e with
        | PakeError.DecryptionHmacError => PakeError.InvalidLoginError
        | err => err) with
  | Except.error e => Except.error e.toProtocol
  | Except.ok skBytes =>
  match P.reprFromBytes skBytes with
  | Except.error e => Except.error e
  | Except.ok client_s_sk =>
  match generate_ke3 P l2_bytes l2.ke2_message self.ke1_state server_s_pk client_s_sk with
  | Except.error e => Except.error e
  | Except.ok (ke3_state, ke3_message) =>
      Except.ok ({ ke3_message := ke3_message }, ke3_state.shared_secret, kd_key)

/-- `ServerLogin`: the server's transient login state. -/
structure ServerLogin where
  ke2_state : KE2State
deriving DecidableEq, Repr, Inhabited

/-- `ServerLogin::to_bytes` (lines 798-800). -/
def ServerLogin.toBytes (st : ServerLogin) : Bytes := st.ke2_state.toBytes

/-- `ServerLogin::try_from` (lines 788-795). -/
def ServerLogin.tryFrom (P : Primitives E S Rp R) (b : Bytes) : Outcome ServerLogin :=
  Outcome.bind (liftE (KE2State.tryFrom P b)) fun ke2_state =>
  Outcome.ok { ke2_state := ke2_state }

/-- `ServerLogin::start` (lines 830-868): evaluate the OPRF on the blinded
element, require the password file's client public key and envelope (each
missing field fails with `PakeError::EncryptionError` via
`.ok_or(PakeError::EncryptionError)?`), then run `generate_ke2` and return
the second message and the server login state. -/
def serverLoginStart (P : Primitives E S Rp R) (password_file : ServerRegistration S Rp)
    (server_s_sk : Rp) (l1 : LoginFirstMessage E) (rng : R) :
    Except ProtocolError (LoginSecondMessage E × ServerLogin) :=
  let l1_bytes := l1.toBytes P
  match generate_oprf2 P l1.alpha password_file.oprf_key with
  | Except.error e => Except.error e
  | Except.ok beta =>
  match password_file.client_s_pk with
  | none => Except.error PakeError.EncryptionError.toProtocol
  | some client_s_pk =>
  match password_file.envelope with
  | none => Except.error PakeError.EncryptionError.toProtocol
  | some envelope =>
  let l2_component := P.elemToBytes beta ++ envelope.toBytes
  match generate_ke2 P rng l1_bytes l2_component l1.ke1_message.client_e_pk client_s_pk
      server_s_sk l1.ke1_message.client_nonce with
  | Except.error e => Except.error e
  | Except.ok (ke2_state, ke2_message) =>
      Except.ok ({ beta := beta, envelope := envelope, ke2_message := ke2_message },
                 { ke2_state := ke2_state })

/-- `ServerLogin::finish` (lines 900-907): run `finish_ke` and remap a
`KeyExchangeMacValidationError` to `InvalidLoginError`. -/
def serverLoginFinish (self : ServerLogin) (message : LoginThirdMessage) :
    Except ProtocolError Bytes :=
  match finish_ke message.ke3_message self.ke2_state with
  | Except.error (ProtocolError.VerificationError PakeError.KeyExchangeMacValidationError) =>
      Except.error (ProtocolError.VerificationError PakeError.InvalidLoginError)
  | Except.error e => Except.error e
  | Except.ok v => Except.ok v

-- ==========================================================================
-- Receiver modes of the finish operations
-- ==========================================================================

/-- The receiver mode of a Rust method: `self` (consuming — the state cannot
be used again) or `&self` (borrowing — the state survives the call). -/
inductive SelfMode where
  | consuming
  | borrowing
deriving DecidableEq, Repr

/-- `ClientRegistration::finish` is declared `pub fn finish(self, ..)`
(src/src/opaque.rs line 379): it consumes its receiver. -/
def ClientRegistration.finishSelfMode : SelfMode := SelfMode.consuming

/-- `ClientLogin::finish` is declared `pub fn finish(self, ..)`
(src/src/opaque.rs line 740): it consumes its receiver. -/
def ClientLogin.finishSelfMode : SelfMode := SelfMode.consuming

/-- `ServerRegistration::finish` is declared `pub fn finish(self, ..)`
(src/src/opaque.rs line 589): it consumes its receiver. -/
def ServerRegistration.finishSelfMode : SelfMode := SelfMode.consuming

/-- `ServerLogin::finish` is declared `pub fn finish(&self, ..)`
(src/src/opaque.rs line 900): it only borrows its receiver. -/
def ServerLogin.finishSelfMode : SelfMode := SelfMode.borrowing

/-- The ownership-faithful transition of `ServerLogin::finish`: because the
Rust signature takes `&self`, the state survives the call and is returned
alongside the result (a consuming signature would leave no state behind). -/
def ServerLogin.finishStep (self : ServerLogin) (message : LoginThirdMessage) :
    Except ProtocolError Bytes × Option ServerLogin :=
  (serverLoginFinish self message, some self)

-- ==========================================================================
-- Well-formedness of the fixed-width components (the field widths every
-- value produced by the protocol has; spec, section 6.2)
-- ==========================================================================

/-- An envelope with the profile's field widths. -/
def RKRCiphertext.WF (P : Primitives E S Rp R) (c : RKRCiphertext) : Prop :=
  c.nonce.length = P.nonceLen ∧ c.ct.length = P.keyLen + P.aeadTagLen ∧
    c.tag.length = P.hmacTagLen

/-- A KE1 message with the profile's field widths. -/
def KE1Message.WF (P : Primitives E S Rp R) (m : KE1Message) : Prop :=
  m.client_nonce.length = P.akeNonceLen ∧ m.client_e_pk.length = P.keyLen

/-- A KE1 state with the profile's field widths. -/
def KE1State.WF (P : Primitives E S Rp R) (st : KE1State) : Prop :=
  st.client_e_sk.length = P.keyLen ∧ st.client_nonce.length = P.akeNonceLen

/-- A KE2 message with the profile's field widths. -/
def KE2Message.WF (P : Primitives E S Rp R) (m : KE2Message) : Prop :=
  m.server_nonce.length = P.akeNonceLen ∧ m.server_e_pk.length = P.keyLen ∧
    m.mac.length = P.hmacTagLen

/-- A KE2 state with the profile's field widths. -/
def KE2State.WF (P : Primitives E S Rp R) (st : KE2State) : Prop :=
  st.shared_secret.length = P.hashLen ∧ st.expected_mac.length = P.hmacTagLen

/-- A KE3 message with the profile's field widths. -/
def KE3Message.WF (P : Primitives E S Rp R) (m : KE3Message) : Prop :=
  m.mac.length = P.hmacTagLen

end Model

-- ==========================================================================
-- A small executable profile, used to evaluate the embedded code on
-- concrete inputs (standing in for Ristretto255 / ChaCha20-Poly1305 /
-- SHA-256 / X25519 / the no-op slow hash of `src/src/slow_hash.rs`)
-- ==========================================================================

/-- Group elements and scalars of the test profile live in the field with
seven elements; key representations and RNG states are natural numbers. -/
def toyP : Primitives (Fin 7) (Fin 7) Nat Nat where
  elemLen := 1
  scalarLen := 1
  keyLen := 1
  nonceLen := 1
  aeadTagLen := 0
  hmacTagLen := 1
  akeNonceLen := 1
  hashLen := 1
  elemToBytes e := [e.val]
  fromElementSlice b :=
    match b with
    | [x] =>
        if h : x < 7 then Except.ok ⟨x, h⟩
        else Except.error ProtocolError.SerializationError
    | _ => Except.error ProtocolError.SerializationError
  scalarAsBytes s := [s.val]
  fromScalarSlice b :=
    match b with
    | [x] =>
        if h : x < 7 then Except.ok ⟨x, h⟩
        else Except.error ProtocolError.SerializationError
    | _ => Except.error ProtocolError.SerializationError
  gmul e s := e * s
  sinv s := ([0, 1, 4, 5, 2, 3, 6] : List (Fin 7)).getD s.val 0
  reprToArr r := [r]
  reprFromBytes b :=
    match b with
    | [x] => Except.ok x
    | _ => Except.error ProtocolError.SerializationError
  pkValid r := decide (r ≠ 0)
  generateRandom rng := ((rng % 251 + 1, rng % 251 + 1), rng + 1)
  randomBytes n rng := (List.replicate n (rng % 256), rng + 1)
  randomScalar rng := (⟨rng % 6 + 1, by omega⟩, rng + 1)
  hashToCurve b := ⟨(b.sum + 1) % 7, by omega⟩
  hash b := [(b.sum + b.length) % 256]
  slowHash b := some b
  hkdfExtract b := b
  hkdfExpand prk info L := some ((List.range L).map fun i => (prk.sum + info.sum + i) % 256)
  aeadSeal _k _n pt _ad := pt.map fun b => (b + 1) % 256
  aeadOpen _k _n ct _ad := some (ct.map fun b => (b + 255) % 256)
  hmac k m := [(k.sum * 2 + m.sum + m.length) % 251]
  dh a b := [(a.sum * b.sum) % 251]

-- ==========================================================================
-- Concrete inputs used by the witnesses
-- ==========================================================================

/-- A concrete client login state used to evaluate the boundary-error
behaviour. -/
def wCl : ClientLogin (Fin 7) := ⟨2, [104], ⟨[3], [1]⟩⟩

/-- A concrete second login message whose envelope tag does not verify. -/
def wL2bad : LoginSecondMessage (Fin 7) := ⟨3, ⟨[0], [7], [99]⟩, ⟨[1], [2], [3]⟩⟩

/-- The password-derived key of the concrete login state. -/
def wY : Bytes :=
  (get_password_derived_key toyP wCl.password wL2bad.beta wCl.blinding_factor).toOption.getD []

/-- The expanded key material of the concrete login state. -/
def wOkm : Bytes := (toyP.hkdfExpand (toyP.hkdfExtract wY) STR_ENVU (3 * DERIVED_KEY_LEN)).getD []

/-- The password of the concrete honest protocol run. -/
def wPw : Bytes := [106]

/-- The server's static secret key of the concrete run (in the test profile
a public key equals its secret key). -/
def wSsk : Nat := 5

/-- The concrete registration run: client start. -/
def wRegPair : RegisterFirstMessage (Fin 7) × ClientRegistration (Fin 7) :=
  (clientRegistrationStart toyP wPw none 0).1.toOption.getD (⟨0⟩, ⟨0, []⟩)

/-- The concrete registration run: server start (fresh OPRF key). -/
def wSrvPair : RegisterSecondMessage (Fin 7) × ServerRegistration (Fin 7) Nat :=
  (serverRegistrationStart toyP wRegPair.1 10).1.toOption.getD (⟨0⟩, ⟨none, none, 0⟩)

/-- The concrete registration run: client finish (third message and export
key). -/
def wRegFin : RegisterThirdMessage Nat × Bytes :=
  (clientRegistrationFinish toyP wRegPair.2 wSrvPair.1 wSsk 20).toOption.getD
    (⟨⟨[], [], []⟩, 0⟩, [])

/-- The concrete password file produced by the registration run. -/
def wFile : ServerRegistration (Fin 7) Nat :=
  (serverRegistrationFinish wSrvPair.2 wRegFin.1).toOption.getD ⟨none, none, 0⟩

/-- The concrete login run: client start. -/
def wLogPair : LoginFirstMessage (Fin 7) × ClientLogin (Fin 7) :=
  (clientLoginStart toyP wPw none 32).1.toOption.getD
    (⟨0, ⟨[], []⟩⟩, ⟨0, [], ⟨[], []⟩⟩)

/-- The concrete login run: server start over the password file. -/
def wL2Pair : LoginSecondMessage (Fin 7) × ServerLogin :=
  (serverLoginStart toyP wFile wSsk wLogPair.1 40).toOption.getD
    (⟨0, ⟨[], [], []⟩, ⟨[], [], []⟩⟩, ⟨⟨[], []⟩⟩)

/-- The concrete login run: client finish (third message, session key,
export key). -/
def wLogFin : LoginThirdMessage × Bytes × Bytes :=
  (clientLoginFinish toyP wLogPair.2 wL2Pair.1 wSsk 50).toOption.getD (⟨⟨[]⟩⟩, [], [])

-- ==========================================================================
-- Theorems
-- ==========================================================================

/-- Sequencing an `ok` result. -/
theorem Outcome.bind_ok {α β : Type} (a : α) (f : α → Outcome β) :
    Outcome.bind (Outcome.ok a) f = f a := rfl

/-- Sequencing an `err` result. -/
theorem Outcome.bind_err {α β : Type} (e : ProtocolError) (f : α → Outcome β) :
    Outcome.bind (Outcome.err e) f = Outcome.err e := rfl

/-- Sequencing a panic. -/
theorem Outcome.bind_panic {α β : Type} (f : α → Outcome β) :
    Outcome.bind Outcome.panic f = Outcome.panic := rfl

/-- Lifting an `ok` result. -/
theorem liftE_ok {α : Type} (a : α) : liftE (Except.ok a) = Outcome.ok a := rfl

/-- Lifting an error. -/
theorem liftE_err {α : Type} (e : ProtocolError) :
    liftE (Except.error e : Except ProtocolError α) = Outcome.err e := rfl

/-- C1: the claim says every finish operation consumes its state, so that a
second `ServerLogin::finish` on the same instance is impossible.  The code
contradicts this: `ServerLogin::finish` is declared with a `&self` receiver
(unlike the three other finish operations, which take `self`), so the state
survives the call and a replayed `LoginThirdMessage` is accepted again with
the same successful result, as this evaluation at a concrete state shows. -/
theorem serverLogin_finish_borrows_and_accepts_replay :
    ServerLogin.finishSelfMode = SelfMode.borrowing ∧
    ClientRegistration.finishSelfMode = SelfMode.consuming ∧
    ClientLogin.finishSelfMode = SelfMode.consuming ∧
    ServerRegistration.finishSelfMode = SelfMode.consuming ∧
    ServerLogin.finishStep ⟨⟨[9], [4]⟩⟩ ⟨⟨[4]⟩⟩ =
      (Except.ok [9], some ⟨⟨[9], [4]⟩⟩) ∧
    (ServerLogin.finishStep ⟨⟨[9], [4]⟩⟩ ⟨⟨[4]⟩⟩).2.map
        (fun st2 => ServerLogin.finishStep st2 ⟨⟨[4]⟩⟩) =
      some (Except.ok [9], some ⟨⟨[9], [4]⟩⟩) := by
  decide

/-- C2 (counterexample): on a pending password file, `ServerLogin::start`
fails — but with the `EncryptionError` kind (from
`.ok_or(PakeError::EncryptionError)?`), not with `InvalidLogin` as the claim
states. -/
theorem serverLoginStart_pending_error_is_not_invalid_login :
    serverLoginStart toyP
      (⟨none, none, (3 : Fin 7)⟩ : ServerRegistration (Fin 7) Nat) 5
      ⟨(2 : Fin 7), ⟨[1], [2]⟩⟩ 0 =
      Except.error (ProtocolError.VerificationError PakeError.EncryptionError) ∧
    serverLoginStart toyP
      (⟨none, none, (3 : Fin 7)⟩ : ServerRegistration (Fin 7) Nat) 5
      ⟨(2 : Fin 7), ⟨[1], [2]⟩⟩ 0 ≠
      Except.error (ProtocolError.VerificationError PakeError.InvalidLoginError) := by
  decide

/-- C2 (amended): for every password file that is not complete (missing
`client_s_pk` or `envelope`), `ServerLogin::start` fails, and the error is
`EncryptionError` (wrapped as a `VerificationError`), not `InvalidLogin`. -/
theorem serverLoginStart_incomplete_fails_with_encryption_error
    {E S Rp R : Type} (P : Primitives E S Rp R) (file : ServerRegistration S Rp)
    (server_s_sk : Rp) (l1 : LoginFirstMessage E) (rng : R)
    (h : file.client_s_pk = none ∨ file.envelope = none) :
    serverLoginStart P file server_s_sk l1 rng =
      Except.error (ProtocolError.VerificationError PakeError.EncryptionError) := by
  unfold serverLoginStart
  rcases h with h | h
  · simp [generate_oprf2, h, PakeError.toProtocol]
  · cases hpk : file.client_s_pk with
    | none => simp [generate_oprf2, hpk, PakeError.toProtocol]
    | some pk => simp [generate_oprf2, hpk, h, PakeError.toProtocol]

/-- C2 (witness): the amended statement evaluated at a concrete pending
file. -/
theorem serverLoginStart_incomplete_fails_with_encryption_error_witness :
    serverLoginStart toyP
      (⟨none, none, (5 : Fin 7)⟩ : ServerRegistration (Fin 7) Nat) 6
      ⟨(4 : Fin 7), ⟨[3], [2]⟩⟩ 1 =
      Except.error (ProtocolError.VerificationError PakeError.EncryptionError) :=
  serverLoginStart_incomplete_fails_with_encryption_error toyP _ 6 _ 1 (Or.inl rfl)

/-- C4: the claim says deserialization of a wrong-length byte string always
fails with a `SerializationError`.  The code contradicts this for
`RegisterFirstMessage::try_from` (which calls `GenericArray::from_slice`
directly, panicking on any length other than `ElemLen`, shorter or longer)
and for `LoginFirstMessage::try_from` (which slices
`&first_message_bytes[..elem_len]`, panicking on shorter input), while
sibling deserializers such as `RegisterSecondMessage::try_from` do return
`SerializationError` via `check_slice_size`. -/
theorem register_and_login_first_message_try_from_panic_on_wrong_length :
    RegisterFirstMessage.tryFrom toyP ([] : Bytes) =
      (Outcome.panic : Outcome (RegisterFirstMessage (Fin 7))) ∧
    RegisterFirstMessage.tryFrom toyP ([1, 2] : Bytes) =
      (Outcome.panic : Outcome (RegisterFirstMessage (Fin 7))) ∧
    LoginFirstMessage.tryFrom toyP ([] : Bytes) =
      (Outcome.panic : Outcome (LoginFirstMessage (Fin 7))) ∧
    RegisterSecondMessage.tryFrom toyP ([] : Bytes) =
      (Outcome.err ProtocolError.SerializationError :
        Outcome (RegisterSecondMessage (Fin 7))) := by
  decide

/-- C9: `ServerRegistration::finish` on a pending record succeeds and
returns the complete record whose envelope and client public key come from
the message, with the OPRF key unchanged. -/
theorem serverRegistration_finish_completes_pending {S Rp : Type}
    (st : ServerRegistration S Rp) (m : RegisterThirdMessage Rp)
    (_henv : st.envelope = none) (_hpk : st.client_s_pk = none) :
    serverRegistrationFinish st m =
      Except.ok { envelope := some m.envelope, client_s_pk := some m.client_s_pk,
                  oprf_key := st.oprf_key } := rfl

/-- C9 (witness): the statement evaluated at a concrete pending record. -/
theorem serverRegistration_finish_completes_pending_witness :
    serverRegistrationFinish (⟨none, none, (3 : Fin 7)⟩ : ServerRegistration (Fin 7) Nat)
      ⟨⟨[1], [2], [3]⟩, 4⟩ =
      Except.ok ⟨some ⟨[1], [2], [3]⟩, some 4, (3 : Fin 7)⟩ :=
  serverRegistration_finish_completes_pending _ _ rfl rfl

/-- The OPRF finalization can only fail with the `SlowHashError` kind. -/
theorem get_password_derived_key_error_eq {E S Rp R : Type} (P : Primitives E S Rp R)
    (pw : Bytes) (beta : E) (r : S) (e : PakeError)
    (h : get_password_derived_key P pw beta r = Except.error e) :
    e = PakeError.SlowHashError := by
  simp only [get_password_derived_key, generate_oprf3] at h
  split at h
  · exact absurd h (by simp)
  · simpa using h.symm

/-- Envelope decryption can only fail with the `DecryptionHmacError` kind. -/
theorem rkrDecrypt_error_eq {E S Rp R : Type} (P : Primitives E S Rp R)
    (c : RKRCiphertext) (ek mk ad : Bytes) (e : PakeError)
    (h : rkrDecrypt P c ek mk ad = Except.error e) :
    e = PakeError.DecryptionHmacError := by
  unfold rkrDecrypt at h
  split at h
  · split at h
    · exact absurd h (by simp)
    · simpa using h.symm
  · simpa using h.symm

/-- The client-side KE3 generation can only fail with the
`KeyExchangeMacValidationError` kind. -/
theorem generate_ke3_error_eq {E S Rp R : Type} (P : Primitives E S Rp R)
    (l2b : Bytes) (ke2m : KE2Message) (ke1st : KE1State) (spk ssk : Rp)
    (e : ProtocolError)
    (h : generate_ke3 P l2b ke2m ke1st spk ssk = Except.error e) :
    e = ProtocolError.VerificationError PakeError.KeyExchangeMacValidationError := by
  simp only [generate_ke3] at h
  split at h
  · exact absurd h (by simp)
  · simpa using h.symm

/-- `finish_ke` can only fail with the `KeyExchangeMacValidationError`
kind. -/
theorem finish_ke_error_eq (m : KE3Message) (st : KE2State) (e : ProtocolError)
    (h : finish_ke m st = Except.error e) :
    e = ProtocolError.VerificationError PakeError.KeyExchangeMacValidationError := by
  unfold finish_ke at h
  split at h
  · exact absurd h (by simp)
  · simpa using h.symm

/-- C3: at the login boundaries the internal authentication failures are
collapsed into `InvalidLogin`: `ClientLogin::finish` remaps a
`DecryptionHmacError` from envelope decryption, `ServerLogin::finish` remaps
a `KeyExchangeMacValidationError` from the AKE MAC check — and neither
boundary ever returns its internal error kind (for the client this uses the
key-pair contract that `Key::from_bytes` fails only with serialization or
public-key kinds, stated as the hypothesis `hrepr`). -/
theorem login_boundaries_collapse_internal_errors {E S Rp R : Type}
    (P : Primitives E S Rp R)
    (hrepr : ∀ b : Bytes, P.reprFromBytes b ≠
      Except.error (ProtocolError.VerificationError PakeError.DecryptionHmacError)) :
    (∀ (st : ClientLogin S) (l2 : LoginSecondMessage E) (spk : Rp) (rng : R)
        (y okm : Bytes),
      get_password_derived_key P st.password l2.beta st.blinding_factor = Except.ok y →
      P.hkdfExpand (P.hkdfExtract y) STR_ENVU (3 * DERIVED_KEY_LEN) = some okm →
      rkrDecrypt P l2.envelope (okm.take DERIVED_KEY_LEN)
          ((okm.drop DERIVED_KEY_LEN).take DERIVED_KEY_LEN) (P.reprToArr spk) =
        Except.error PakeError.DecryptionHmacError →
      clientLoginFinish P st l2 spk rng =
        Except.error (ProtocolError.VerificationError PakeError.InvalidLoginError)) ∧
    (∀ (st : ClientLogin S) (l2 : LoginSecondMessage E) (spk : Rp) (rng : R),
      clientLoginFinish P st l2 spk rng ≠
        Except.error (ProtocolError.VerificationError PakeError.DecryptionHmacError)) ∧
    (∀ (st : ServerLogin) (m : LoginThirdMessage),
      finish_ke m.ke3_message st.ke2_state =
        Except.error
          (ProtocolError.VerificationError PakeError.KeyExchangeMacValidationError) →
      serverLoginFinish st m =
        Except.error (ProtocolError.VerificationError PakeError.InvalidLoginError)) ∧
    (∀ (st : ServerLogin) (m : LoginThirdMessage),
      serverLoginFinish st m ≠
        Except.error
          (ProtocolError.VerificationError PakeError.KeyExchangeMacValidationError)) := by
  refine ⟨?client_map, ?client_never, ?server_map, ?server_never⟩
  case client_map =>
    intro st l2 spk rng y okm hy hokm hdec
    unfold clientLoginFinish
    simp only [hy, hokm, hdec, Except.mapError, PakeError.toProtocol]
  case client_never =>
    intro st l2 spk rng
    rcases hpdk : get_password_derived_key P st.password l2.beta st.blinding_factor
      with e | y
    · have he := get_password_derived_key_error_eq P _ _ _ e hpdk
      subst he
      simp [clientLoginFinish, hpdk, PakeError.toProtocol]
    · rcases hokm : P.hkdfExpand (P.hkdfExtract y) STR_ENVU (3 * DERIVED_KEY_LEN)
        with _ | okm
      · simp [clientLoginFinish, hpdk, hokm, PakeError.toProtocol]
      · rcases hd : rkrDecrypt P l2.envelope (okm.take DERIVED_KEY_LEN)
            ((okm.drop DERIVED_KEY_LEN).take DERIVED_KEY_LEN) (P.reprToArr spk)
          with e0 | sk
        · have he0 := rkrDecrypt_error_eq P _ _ _ _ e0 hd
          subst he0
          simp [clientLoginFinish, hpdk, hokm, hd, Except.mapError, PakeError.toProtocol]
        · rcases hfb : P.reprFromBytes sk with e1 | key
          · have hres : clientLoginFinish P st l2 spk rng = Except.error e1 := by
              simp [clientLoginFinish, hpdk, hokm, hd, hfb, Except.mapError]
            rw [hres]
            intro hcontra
            injection hcontra with h1
            subst h1
            exact hrepr sk hfb
          · rcases hke3 : generate_ke3 P (P.elemToBytes l2.beta ++ l2.envelope.toBytes)
                l2.ke2_message st.ke1_state spk key with e2 | pr
            · have he2 := generate_ke3_error_eq P _ _ _ _ _ e2 hke3
              subst he2
              simp [clientLoginFinish, hpdk, hokm, hd, hfb, hke3, Except.mapError]
            · simp [clientLoginFinish, hpdk, hokm, hd, hfb, hke3, Except.mapError]
  case server_map =>
    intro st m hke
    unfold serverLoginFinish
    rw [hke]
  case server_never =>
    intro st m
    rcases hfk : finish_ke m.ke3_message st.ke2_state with e | v
    · have he := finish_ke_error_eq _ _ e hfk
      subst he
      simp [serverLoginFinish, hfk]
    · simp [serverLoginFinish, hfk]

/-- C3 (witness): the boundary collapse evaluated at a concrete tampered
envelope (client side) and a concrete failing MAC (server side). -/
theorem login_boundaries_collapse_internal_errors_witness :
    clientLoginFinish toyP wCl wL2bad 5 0 =
      Except.error (ProtocolError.VerificationError PakeError.InvalidLoginError) ∧
    serverLoginFinish ⟨⟨[9], [4]⟩⟩ ⟨⟨[5]⟩⟩ =
      Except.error (ProtocolError.VerificationError PakeError.InvalidLoginError) := by
  have h := login_boundaries_collapse_internal_errors toyP ?hrepr
  case hrepr =>
    intro b
    match b with
    | [] => simp [toyP]
    | [x] => simp [toyP]
    | x :: y :: rest => simp [toyP]
  exact ⟨h.1 wCl wL2bad 5 0 wY wOkm (by decide) (by decide) (by decide),
         h.2.2.1 ⟨⟨[9], [4]⟩⟩ ⟨⟨[5]⟩⟩ (by decide)⟩

/-- C8: before a `RegisterThirdMessage` is accepted, the carried
`client_s_pk` is validated by `KeyFormat::check_public_key`: a value failing
the check is rejected with `InvalidPublicKey`, and every accepted message
carries a validated key — substituting an invalid point never yields
success. -/
theorem registerThirdMessage_validates_client_s_pk {E S Rp R : Type}
    (P : Primitives E S Rp R) :
    (∀ (b : Bytes) (u : Rp),
      b.length = rkrWithNonceSize P + P.keyLen →
      P.reprFromBytes (b.drop (rkrWithNonceSize P)) = Except.ok u →
      P.pkValid u = false →
      RegisterThirdMessage.tryFrom P b =
        Outcome.err (ProtocolError.VerificationError PakeError.InvalidPublicKeyError)) ∧
    (∀ (b : Bytes) (m : RegisterThirdMessage Rp),
      RegisterThirdMessage.tryFrom P b = Outcome.ok m →
      P.pkValid m.client_s_pk = true) := by
  constructor
  · intro b u hlen hu hval
    simp [RegisterThirdMessage.tryFrom, check_slice_size, hlen, hu, check_public_key,
      hval, Outcome.bind, liftE]
  · intro b m h
    simp only [RegisterThirdMessage.tryFrom] at h
    rcases hc : check_slice_size b (rkrWithNonceSize P + P.keyLen) with e | cb <;>
      rw [hc] at h
    · simp [liftE, Outcome.bind] at h
    · simp only [liftE_ok, Outcome.bind_ok] at h
      rcases hfb : P.reprFromBytes (cb.drop (rkrWithNonceSize P)) with e | u <;>
        rw [hfb] at h
      · simp [liftE, Outcome.bind] at h
      · simp only [liftE_ok, Outcome.bind_ok] at h
        cases hval : P.pkValid u with
        | false => simp [check_public_key, hval, liftE, Outcome.bind] at h
        | true =>
          simp only [check_public_key, hval, if_true, liftE_ok, Outcome.bind_ok] at h
          rcases henv : rkrFromBytes P (cb.take (rkrWithNonceSize P)) with e | env <;>
            rw [henv] at h
          · simp [liftE, Outcome.bind] at h
          · simp only [liftE_ok, Outcome.bind_ok, Outcome.ok.injEq] at h
            subst h
            simpa using hval

/-- C8 (witness): the validation evaluated at a concrete rejected byte
string (public-key byte `0`, the identity) and a concrete accepted one. -/
theorem registerThirdMessage_validates_client_s_pk_witness :
    RegisterThirdMessage.tryFrom toyP ([1, 2, 3, 0] : Bytes) =
      (Outcome.err (ProtocolError.VerificationError PakeError.InvalidPublicKeyError) :
        Outcome (RegisterThirdMessage Nat)) ∧
    toyP.pkValid (4 : Nat) = true := by
  have h := registerThirdMessage_validates_client_s_pk toyP
  exact ⟨h.1 [1, 2, 3, 0] 0 (by decide) (by decide) (by decide),
         h.2 [1, 2, 3, 4] ⟨⟨[1], [2], [3]⟩, 4⟩ (by decide)⟩

/-- C10: `ClientLogin::finish` never reads its RNG parameter
(`_client_e_sk_rng`): its result is fully determined by the state, the
second login message, and the server public key, so two runs with any two
RNGs coincide. -/
theorem clientLogin_finish_independent_of_rng {E S Rp R : Type}
    (P : Primitives E S Rp R) (st : ClientLogin S) (l2 : LoginSecondMessage E)
    (server_s_pk : Rp) (rng₁ rng₂ : R) :
    clientLoginFinish P st l2 server_s_pk rng₁ =
      clientLoginFinish P st l2 server_s_pk rng₂ := rfl

/-- Whenever `ClientRegistration::finish` succeeds, the returned export key
is `okm[2 * DERIVED_KEY_LEN ..]`, the last third of the expanded key
material. -/
theorem clientRegistrationFinish_ok_export {E S Rp R : Type} (P : Primitives E S Rp R)
    (st : ClientRegistration S) (r2 : RegisterSecondMessage E) (spk : Rp) (rng : R)
    (y okm : Bytes) (res : RegisterThirdMessage Rp × Bytes)
    (hy : get_password_derived_key P st.password r2.beta st.blinding_factor = Except.ok y)
    (hokm : P.hkdfExpand (P.hkdfExtract y) STR_ENVU (3 * DERIVED_KEY_LEN) = some okm)
    (hres : clientRegistrationFinish P st r2 spk rng = Except.ok res) :
    res.2 = okm.drop (2 * DERIVED_KEY_LEN) := by
  rcases hgr : P.generateRandom rng with ⟨⟨cSk, cPk⟩, rng1⟩
  simp only [clientRegistrationFinish, hgr, hy, hokm, Except.ok.injEq] at hres
  rw [← hres]

/-- Whenever `ClientLogin::finish` succeeds, the returned export key is
`okm[2 * DERIVED_KEY_LEN ..]`, the last third of the expanded key
material. -/
theorem clientLoginFinish_ok_export {E S Rp R : Type} (P : Primitives E S Rp R)
    (st : ClientLogin S) (l2 : LoginSecondMessage E) (spk : Rp) (rng : R)
    (y okm : Bytes) (res : LoginThirdMessage × Bytes × Bytes)
    (hy : get_password_derived_key P st.password l2.beta st.blinding_factor = Except.ok y)
    (hokm : P.hkdfExpand (P.hkdfExtract y) STR_ENVU (3 * DERIVED_KEY_LEN) = some okm)
    (hres : clientLoginFinish P st l2 spk rng = Except.ok res) :
    res.2.2 = okm.drop (2 * DERIVED_KEY_LEN) := by
  rcases hd : rkrDecrypt P l2.envelope (okm.take DERIVED_KEY_LEN)
      ((okm.drop DERIVED_KEY_LEN).take DERIVED_KEY_LEN) (P.reprToArr spk) with e0 | sk
  · have he0 := rkrDecrypt_error_eq P _ _ _ _ e0 hd
    subst he0
    simp [clientLoginFinish, hy, hokm, hd, Except.mapError] at hres
  · rcases hfb : P.reprFromBytes sk with e1 | key
    · simp [clientLoginFinish, hy, hokm, hd, hfb, Except.mapError] at hres
    · rcases hke3 : generate_ke3 P (P.elemToBytes l2.beta ++ l2.envelope.toBytes)
          l2.ke2_message st.ke1_state spk key with e2 | pr
      · simp [clientLoginFinish, hy, hokm, hd, hfb, hke3, Except.mapError] at hres
      · rcases pr with ⟨ke3st, ke3m⟩
        simp only [clientLoginFinish, hy, hokm, hd, hfb, hke3, Except.mapError,
          Except.ok.injEq] at hres
        rw [← hres]

/-- C6: both client finish operations derive exactly three 32-byte keys from
the OPRF output `y` by HKDF expansion to `96` bytes of key material `okm`
with info `"EnvU"` (and the extract step applied to `y` alone — the empty
salt is fixed inside the KDF model): the encryption key is `okm[0..32]`, the
HMAC key is `okm[32..64]`, and the export key is `okm[64..96]`, as the exact
output shape of `ClientRegistration::finish` and the export key of
`ClientLogin::finish` show. -/
theorem client_finishes_derive_three_hkdf_keys {E S Rp R : Type}
    (P : Primitives E S Rp R)
    (hL : ∀ (prk info : Bytes) (L : Nat) (okm : Bytes),
      P.hkdfExpand prk info L = some okm → okm.length = L)
    (pw : Bytes) (beta : E) (r : S) (spk : Rp) (rng : R) (ke1st : KE1State)
    (env : RKRCiphertext) (ke2m : KE2Message) (y okm : Bytes)
    (hy : get_password_derived_key P pw beta r = Except.ok y)
    (hokm : P.hkdfExpand (P.hkdfExtract y) STR_ENVU (3 * DERIVED_KEY_LEN) = some okm) :
    okm.length = 96 ∧
    (okm.take DERIVED_KEY_LEN).length = 32 ∧
    ((okm.drop DERIVED_KEY_LEN).take DERIVED_KEY_LEN).length = 32 ∧
    (okm.drop (2 * DERIVED_KEY_LEN)).length = 32 ∧
    clientRegistrationFinish P ⟨r, pw⟩ ⟨beta⟩ spk rng =
      Except.ok
        (⟨(rkrEncrypt P (okm.take DERIVED_KEY_LEN)
              ((okm.drop DERIVED_KEY_LEN).take DERIVED_KEY_LEN)
              (P.reprToArr (P.generateRandom rng).1.1) (P.reprToArr spk)
              (P.generateRandom rng).2).1,
          (P.generateRandom rng).1.2⟩,
         okm.drop (2 * DERIVED_KEY_LEN)) ∧
    (∀ res : LoginThirdMessage × Bytes × Bytes,
      clientLoginFinish P ⟨r, pw, ke1st⟩ ⟨beta, env, ke2m⟩ spk rng = Except.ok res →
      res.2.2 = okm.drop (2 * DERIVED_KEY_LEN)) := by
  have hlen : okm.length = 96 := hL _ _ _ _ hokm
  refine ⟨hlen, ?_, ?_, ?_, ?_, ?_⟩
  · simp [List.length_take, hlen, DERIVED_KEY_LEN]
  · simp [List.length_take, List.length_drop, hlen, DERIVED_KEY_LEN]
  · simp [List.length_drop, hlen, DERIVED_KEY_LEN]
  · rcases hgr : P.generateRandom rng with ⟨⟨cSk, cPk⟩, rng1⟩
    simp [clientRegistrationFinish, hgr, hy, hokm]
  · intro res hres
    exact clientLoginFinish_ok_export P ⟨r, pw, ke1st⟩ ⟨beta, env, ke2m⟩ spk rng y okm
      res hy hokm hres

/-- C6 (witness): the derivation shape evaluated at a concrete state. -/
theorem client_finishes_derive_three_hkdf_keys_witness :
    wOkm.length = 96 ∧
    clientRegistrationFinish toyP ⟨2, [104]⟩ ⟨3⟩ 5 0 =
      Except.ok
        (⟨(rkrEncrypt toyP (wOkm.take DERIVED_KEY_LEN)
              ((wOkm.drop DERIVED_KEY_LEN).take DERIVED_KEY_LEN)
              (toyP.reprToArr (toyP.generateRandom 0).1.1) (toyP.reprToArr 5)
              (toyP.generateRandom 0).2).1,
          (toyP.generateRandom 0).1.2⟩,
         wOkm.drop (2 * DERIVED_KEY_LEN)) := by
  have h := client_finishes_derive_three_hkdf_keys toyP ?hL [104] 3 2 5 0
    ⟨[3], [1]⟩ ⟨[0], [7], [99]⟩ ⟨[1], [2], [3]⟩ wY wOkm (by decide) (by decide)
  case hL =>
    intro prk info L okm hok
    simp only [toyP] at hok
    injection hok with h1
    subst h1
    simp
  exact ⟨h.1, h.2.2.2.2.1⟩

/-- C5: for the same password and the same OPRF key `k`, the export key
returned by `ClientRegistration::finish` equals the export key returned by
`ClientLogin::finish`: with honest blinded evaluations
`beta = (t·r)·k` on both runs, the OPRF unblinding laws (`h1`, `h2`) make
the password-derived key — and hence the HKDF export slice — depend only on
the password and `t·k`. -/
theorem export_key_equal_register_login {E S Rp R : Type}
    (P : Primitives E S Rp R) (pw : Bytes) (t : E) (r1 r2 k : S)
    (spk : Rp) (rng1 rng2 : R) (ke1st : KE1State) (env : RKRCiphertext)
    (ke2m : KE2Message)
    (h1 : P.gmul (P.gmul (P.gmul t r1) k) (P.sinv r1) = P.gmul t k)
    (h2 : P.gmul (P.gmul (P.gmul t r2) k) (P.sinv r2) = P.gmul t k)
    (res1 : RegisterThirdMessage Rp × Bytes)
    (res2 : LoginThirdMessage × Bytes × Bytes)
    (hreg : clientRegistrationFinish P ⟨r1, pw⟩ ⟨P.gmul (P.gmul t r1) k⟩ spk rng1 =
      Except.ok res1)
    (hlog : clientLoginFinish P ⟨r2, pw, ke1st⟩ ⟨P.gmul (P.gmul t r2) k, env, ke2m⟩
        spk rng2 = Except.ok res2) :
    res1.2 = res2.2.2 := by
  have hpdk : get_password_derived_key P pw (P.gmul (P.gmul t r1) k) r1 =
      get_password_derived_key P pw (P.gmul (P.gmul t r2) k) r2 := by
    simp only [get_password_derived_key, generate_oprf3, h1, h2]
  rcases hpd : get_password_derived_key P pw (P.gmul (P.gmul t r1) k) r1 with e | y
  · rcases hgr : P.generateRandom rng1 with ⟨⟨cSk, cPk⟩, rng1a⟩
    simp [clientRegistrationFinish, hgr, hpd] at hreg
  · have hpd2 : get_password_derived_key P pw (P.gmul (P.gmul t r2) k) r2 =
        Except.ok y := by rw [← hpdk]; exact hpd
    rcases hokm : P.hkdfExpand (P.hkdfExtract y) STR_ENVU (3 * DERIVED_KEY_LEN)
      with _ | okm
    · rcases hgr : P.generateRandom rng1 with ⟨⟨cSk, cPk⟩, rng1a⟩
      simp [clientRegistrationFinish, hgr, hpd, hokm] at hreg
    · have e1 := clientRegistrationFinish_ok_export P ⟨r1, pw⟩
        ⟨P.gmul (P.gmul t r1) k⟩ spk rng1 y okm res1 hpd hokm hreg
      have e2 := clientLoginFinish_ok_export P ⟨r2, pw, ke1st⟩
        ⟨P.gmul (P.gmul t r2) k, env, ke2m⟩ spk rng2 y okm res2 hpd2 hokm hlog
      rw [e1, e2]

/-- C5 (witness): a full honest registration and login run with the same
password and password file; the two export keys coincide. -/
theorem export_key_equal_register_login_witness : wRegFin.2 = wLogFin.2.2 := by
  have h := export_key_equal_register_login toyP wPw (toyP.hashToCurve wPw) 1 3 5
    wSsk 20 50 wLogPair.2.ke1_state wL2Pair.1.envelope wL2Pair.1.ke2_message
    (by decide) (by decide) wRegFin wLogFin (by decide) (by decide)
  exact h

section RoundTrip

variable {E S Rp R : Type}

/-- Taking the length of the first operand of an append. -/
theorem take_append_len (a b : Bytes) (n : Nat) (h : a.length = n) :
    (a ++ b).take n = a := by
  subst h
  simp [List.take_append]

/-- Dropping the length of the first operand of an append. -/
theorem drop_append_len (a b : Bytes) (n : Nat) (h : a.length = n) :
    (a ++ b).drop n = b := by
  subst h
  simp

/-- The serialized envelope has the fixed RKR width. -/
theorem rkr_toBytes_length (P : Primitives E S Rp R) (c : RKRCiphertext)
    (h : c.WF P) : c.toBytes.length = rkrWithNonceSize P := by
  rcases h with ⟨h1, h2, h3⟩
  simp [RKRCiphertext.toBytes, rkrWithNonceSize, h1, h2, h3]
  omega

/-- Envelope serialization round-trips on well-formed envelopes. -/
theorem rkrFromBytes_toBytes (P : Primitives E S Rp R) (c : RKRCiphertext)
    (h : c.WF P) : rkrFromBytes P c.toBytes = Except.ok c := by
  obtain ⟨h1, h2, h3⟩ := h
  have e1 : c.toBytes.take P.nonceLen = c.nonce := by
    rw [show c.toBytes = c.nonce ++ (c.ct ++ c.tag) from by
      simp [RKRCiphertext.toBytes]]
    exact take_append_len _ _ _ h1
  have e2 : (c.toBytes.drop P.nonceLen).take (P.keyLen + P.aeadTagLen) = c.ct := by
    rw [show c.toBytes = c.nonce ++ (c.ct ++ c.tag) from by
      simp [RKRCiphertext.toBytes]]
    rw [drop_append_len _ _ _ h1]
    exact take_append_len _ _ _ h2
  have e3 : c.toBytes.drop (P.nonceLen + (P.keyLen + P.aeadTagLen)) = c.tag := by
    rw [show c.toBytes = (c.nonce ++ c.ct) ++ c.tag from by
      simp [RKRCiphertext.toBytes]]
    exact drop_append_len _ _ _ (by simp [h1, h2])
  unfold rkrFromBytes
  rw [if_pos (rkr_toBytes_length P c ⟨h1, h2, h3⟩), e1, e2, e3]

/-- KE1 message serialization round-trips. -/
theorem ke1Message_roundtrip (P : Primitives E S Rp R) (m : KE1Message)
    (h : m.WF P) : KE1Message.tryFrom P m.toBytes = Except.ok m := by
  obtain ⟨h1, h2⟩ := h
  unfold KE1Message.tryFrom
  rw [if_pos (by simp [KE1Message.toBytes, ke1MessageLen, h1, h2])]
  rw [show m.toBytes = m.client_nonce ++ m.client_e_pk from rfl]
  rw [take_append_len _ _ _ h1, drop_append_len _ _ _ h1]

/-- KE1 state serialization round-trips. -/
theorem ke1State_roundtrip (P : Primitives E S Rp R) (st : KE1State)
    (h : st.WF P) : KE1State.tryFrom P st.toBytes = Except.ok st := by
  obtain ⟨h1, h2⟩ := h
  unfold KE1State.tryFrom
  rw [if_pos (by simp [KE1State.toBytes, ke1StateLen, h1, h2])]
  rw [show st.toBytes = st.client_e_sk ++ st.client_nonce from rfl]
  rw [take_append_len _ _ _ h1, drop_append_len _ _ _ h1]

/-- The serialized KE1 state has the fixed width. -/
theorem ke1State_toBytes_length (P : Primitives E S Rp R) (st : KE1State)
    (h : st.WF P) : st.toBytes.length = ke1StateLen P := by
  obtain ⟨h1, h2⟩ := h
  simp [KE1State.toBytes, ke1StateLen, h1, h2]

/-- KE2 message serialization round-trips. -/
theorem ke2Message_roundtrip (P : Primitives E S Rp R) (m : KE2Message)
    (h : m.WF P) : KE2Message.tryFrom P m.toBytes = Except.ok m := by
  obtain ⟨h1, h2, h3⟩ := h
  have e1 : m.toBytes.take P.akeNonceLen = m.server_nonce := by
    rw [show m.toBytes = m.server_nonce ++ (m.server_e_pk ++ m.mac) from by
      simp [KE2Message.toBytes]]
    exact take_append_len _ _ _ h1
  have e2 : (m.toBytes.drop P.akeNonceLen).take P.keyLen = m.server_e_pk := by
    rw [show m.toBytes = m.server_nonce ++ (m.server_e_pk ++ m.mac) from by
      simp [KE2Message.toBytes]]
    rw [drop_append_len _ _ _ h1]
    exact take_append_len _ _ _ h2
  have e3 : m.toBytes.drop (P.akeNonceLen + P.keyLen) = m.mac := by
    rw [show m.toBytes = (m.server_nonce ++ m.server_e_pk) ++ m.mac from by
      simp [KE2Message.toBytes]]
    exact drop_append_len _ _ _ (by simp [h1, h2])
  unfold KE2Message.tryFrom
  rw [if_pos (by simp [KE2Message.toBytes, ke2MessageLen, h1, h2, h3]; omega), e1, e2, e3]

/-- KE2 state serialization round-trips. -/
theorem ke2State_roundtrip (P : Primitives E S Rp R) (st : KE2State)
    (h : st.WF P) : KE2State.tryFrom P st.toBytes = Except.ok st := by
  obtain ⟨h1, h2⟩ := h
  unfold KE2State.tryFrom
  rw [if_pos (by simp [KE2State.toBytes, ke2StateLen, h1, h2])]
  rw [show st.toBytes = st.shared_secret ++ st.expected_mac from rfl]
  rw [take_append_len _ _ _ h1, drop_append_len _ _ _ h1]

/-- KE3 message serialization round-trips. -/
theorem ke3Message_roundtrip (P : Primitives E S Rp R) (m : KE3Message)
    (h : m.WF P) : KE3Message.tryFrom P m.toBytes = Except.ok m := by
  unfold KE3Message.tryFrom
  rw [if_pos (by simpa [KE3Message.toBytes, ke3MessageLen] using h)]
  rfl

/-- C7: serialize-then-deserialize is the identity on every message type and
every serializable state: on the two register element messages under the
group serialization contract; on the third register message, the three login
messages, and the four states under the respective field-width
well-formedness (the widths every protocol-produced value has), the key-pair
serialization contract, and — for a complete `ServerRegistration` — a
validated stored public key.  A `ServerRegistration` is either pending (both
optional fields empty) or complete (both present), matching its two
reachable forms. -/
theorem serialize_deserialize_identity (P : Primitives E S Rp R)
    (hElemRT : ∀ e : E, P.fromElementSlice (P.elemToBytes e) = Except.ok e)
    (hElemLen : ∀ e : E, (P.elemToBytes e).length = P.elemLen)
    (hScalarRT : ∀ s : S, P.fromScalarSlice (P.scalarAsBytes s) = Except.ok s)
    (hScalarLen : ∀ s : S, (P.scalarAsBytes s).length = P.scalarLen)
    (hReprRT : ∀ r : Rp, P.reprFromBytes (P.reprToArr r) = Except.ok r)
    (hReprLen : ∀ r : Rp, (P.reprToArr r).length = P.keyLen)
    (hKeyPos : 0 < P.keyLen) :
    (∀ m : RegisterFirstMessage E,
      RegisterFirstMessage.tryFrom P (m.toBytes P) = Outcome.ok m) ∧
    (∀ m : RegisterSecondMessage E,
      RegisterSecondMessage.tryFrom P (m.toBytes P) = Outcome.ok m) ∧
    (∀ m : RegisterThirdMessage Rp, m.envelope.WF P → P.pkValid m.client_s_pk = true →
      RegisterThirdMessage.tryFrom P (m.toBytes P) = Outcome.ok m) ∧
    (∀ m : LoginFirstMessage E, m.ke1_message.WF P →
      LoginFirstMessage.tryFrom P (m.toBytes P) = Outcome.ok m) ∧
    (∀ m : LoginSecondMessage E, m.envelope.WF P → m.ke2_message.WF P →
      LoginSecondMessage.tryFrom P (m.toBytes P) = Outcome.ok m) ∧
    (∀ m : LoginThirdMessage, m.ke3_message.WF P →
      LoginThirdMessage.tryFrom P m.toBytes = Outcome.ok m) ∧
    (∀ st : ClientRegistration S,
      ClientRegistration.tryFrom P (st.toBytes P) = Outcome.ok st) ∧
    (∀ st : ClientLogin S, st.ke1_state.WF P →
      ClientLogin.tryFrom P (st.toBytes P) = Outcome.ok st) ∧
    (∀ st : ServerRegistration S Rp,
      (st.envelope = none ∧ st.client_s_pk = none) ∨
        (∃ env pk, st.envelope = some env ∧ st.client_s_pk = some pk ∧
          env.WF P ∧ P.pkValid pk = true) →
      ServerRegistration.tryFrom P (st.toBytes P) = Outcome.ok st) ∧
    (∀ st : ServerLogin, st.ke2_state.WF P →
      ServerLogin.tryFrom P st.toBytes = Outcome.ok st) := by
  refine ⟨?r1, ?r2, ?r3, ?l1, ?l2, ?l3, ?cr, ?cl, ?sr, ?sl⟩
  case r1 =>
    intro m
    unfold RegisterFirstMessage.tryFrom RegisterFirstMessage.toBytes gaFromSlice
    rw [if_pos (hElemLen m.alpha)]
    simp [Outcome.bind, liftE, hElemRT, Except.map]
  case r2 =>
    intro m
    unfold RegisterSecondMessage.tryFrom RegisterSecondMessage.toBytes check_slice_size
    rw [if_pos (hElemLen m.beta)]
    simp [Outcome.bind, liftE, hElemRT, Except.map]
  case r3 =>
    intro m henv hval
    have hrkr := rkr_toBytes_length P m.envelope henv
    have hb : (m.toBytes P).length = rkrWithNonceSize P + P.keyLen := by
      simp [RegisterThirdMessage.toBytes, hrkr, hReprLen]
    have hdrop : (m.toBytes P).drop (rkrWithNonceSize P) = P.reprToArr m.client_s_pk := by
      unfold RegisterThirdMessage.toBytes
      exact drop_append_len _ _ _ hrkr
    have htake : (m.toBytes P).take (rkrWithNonceSize P) = m.envelope.toBytes := by
      unfold RegisterThirdMessage.toBytes
      exact take_append_len _ _ _ hrkr
    unfold RegisterThirdMessage.tryFrom
    simp only [check_slice_size]
    rw [if_pos hb]
    simp only [liftE_ok, Outcome.bind_ok]
    rw [hdrop, hReprRT]
    simp only [liftE_ok, Outcome.bind_ok, check_public_key, hval, if_true]
    rw [htake, rkrFromBytes_toBytes P _ henv]
    simp [liftE, Outcome.bind]
  case l1 =>
    intro m hke1
    unfold LoginFirstMessage.tryFrom LoginFirstMessage.toBytes sliceTo
    rw [if_pos (by simp [hElemLen])]
    simp only [Outcome.bind_ok]
    rw [take_append_len _ _ _ (hElemLen m.alpha), hElemRT]
    simp only [liftE_ok, Outcome.bind_ok]
    rw [drop_append_len _ _ _ (hElemLen m.alpha), ke1Message_roundtrip P _ hke1]
    simp [liftE, Outcome.bind]
  case l2 =>
    intro m henv hke2
    have hrkr := rkr_toBytes_length P m.envelope henv
    have hke2len : m.ke2_message.toBytes.length = ke2MessageLen P := by
      obtain ⟨k1, k2, k3⟩ := hke2
      simp [KE2Message.toBytes, ke2MessageLen, k1, k2, k3]
      omega
    have hb : (m.toBytes P).length =
        P.elemLen + rkrWithNonceSize P + ke2MessageLen P := by
      simp [LoginSecondMessage.toBytes, hrkr, hElemLen, hke2len]
      omega
    have e1 : (m.toBytes P).take P.elemLen = P.elemToBytes m.beta := by
      rw [show m.toBytes P =
          P.elemToBytes m.beta ++ (m.envelope.toBytes ++ m.ke2_message.toBytes) from by
        simp [LoginSecondMessage.toBytes]]
      exact take_append_len _ _ _ (hElemLen m.beta)
    have e2 : ((m.toBytes P).drop P.elemLen).take (rkrWithNonceSize P) =
        m.envelope.toBytes := by
      rw [show m.toBytes P =
          P.elemToBytes m.beta ++ (m.envelope.toBytes ++ m.ke2_message.toBytes) from by
        simp [LoginSecondMessage.toBytes]]
      rw [drop_append_len _ _ _ (hElemLen m.beta)]
      exact take_append_len _ _ _ hrkr
    have e3 : (m.toBytes P).drop (P.elemLen + rkrWithNonceSize P) =
        m.ke2_message.toBytes := by
      rw [show m.toBytes P =
          (P.elemToBytes m.beta ++ m.envelope.toBytes) ++ m.ke2_message.toBytes from by
        simp [LoginSecondMessage.toBytes]]
      exact drop_append_len _ _ _ (by simp [hElemLen, hrkr])
    unfold LoginSecondMessage.tryFrom
    simp only [check_slice_size]
    rw [if_pos hb]
    simp only [liftE_ok, Outcome.bind_ok]
    rw [e1, hElemRT]
    simp only [liftE_ok, Outcome.bind_ok]
    rw [e2, rkrFromBytes_toBytes P _ henv]
    simp only [liftE_ok, Outcome.bind_ok]
    rw [e3, ke2Message_roundtrip P _ hke2]
    simp [liftE, Outcome.bind]
  case l3 =>
    intro m hke3
    unfold LoginThirdMessage.tryFrom LoginThirdMessage.toBytes
    rw [ke3Message_roundtrip P _ hke3]
    simp [liftE, Outcome.bind]
  case cr =>
    intro st
    unfold ClientRegistration.tryFrom ClientRegistration.toBytes sliceTo
    rw [if_pos (by simp [hScalarLen])]
    simp only [Outcome.bind_ok]
    rw [take_append_len _ _ _ (hScalarLen st.blinding_factor), hScalarRT]
    simp only [liftE_ok, Outcome.bind_ok]
    rw [drop_append_len _ _ _ (hScalarLen st.blinding_factor)]
  case cl =>
    intro st hke1
    have hke1len := ke1State_toBytes_length P st.ke1_state hke1
    have hsb := hScalarLen st.blinding_factor
    have e1 : (st.toBytes P).take P.scalarLen = P.scalarAsBytes st.blinding_factor := by
      rw [show st.toBytes P = P.scalarAsBytes st.blinding_factor ++
          (st.ke1_state.toBytes ++ st.password) from by simp [ClientLogin.toBytes]]
      exact take_append_len _ _ _ hsb
    have e2 : ((st.toBytes P).take (P.scalarLen + ke1StateLen P)).drop P.scalarLen =
        st.ke1_state.toBytes := by
      rw [show st.toBytes P = (P.scalarAsBytes st.blinding_factor ++
          st.ke1_state.toBytes) ++ st.password from by simp [ClientLogin.toBytes]]
      rw [take_append_len _ _ _ (by simp [hsb, hke1len])]
      rw [show P.scalarAsBytes st.blinding_factor ++ st.ke1_state.toBytes =
          P.scalarAsBytes st.blinding_factor ++ st.ke1_state.toBytes from rfl]
      exact drop_append_len _ _ _ hsb
    have e3 : (st.toBytes P).drop (P.scalarLen + ke1StateLen P) = st.password := by
      rw [show st.toBytes P = (P.scalarAsBytes st.blinding_factor ++
          st.ke1_state.toBytes) ++ st.password from by simp [ClientLogin.toBytes]]
      exact drop_append_len _ _ _ (by simp [hsb, hke1len])
    have hlen : P.scalarLen + ke1StateLen P ≤ (st.toBytes P).length := by
      simp [ClientLogin.toBytes, hsb, hke1len]
    unfold ClientLogin.tryFrom sliceTo sliceRange
    rw [if_pos (by simp [ClientLogin.toBytes, hsb])]
    simp only [Outcome.bind_ok]
    rw [e1, hScalarRT]
    simp only [liftE_ok, Outcome.bind_ok]
    rw [if_pos ⟨by omega, hlen⟩]
    simp only [Outcome.bind_ok]
    rw [e2, ke1State_roundtrip P _ hke1]
    simp only [liftE_ok, Outcome.bind_ok]
    rw [e3]
  case sr =>
    rintro st (⟨h1, h2⟩ | ⟨env, pk, h1, h2, henv, hval⟩)
    · obtain ⟨env, cpk, k⟩ := st
      simp only at h1 h2
      subst h1
      subst h2
      unfold ServerRegistration.tryFrom ServerRegistration.toBytes
      simp only [List.append_nil]
      rw [if_pos (hScalarLen k)]
      simp [liftE, hScalarRT, Except.map]
    · obtain ⟨env0, cpk0, k⟩ := st
      simp only at h1 h2
      subst h1
      subst h2
      have hrkr := rkr_toBytes_length P env henv
      have hpk := hReprLen pk
      have hsk := hScalarLen k
      have hblen : ((⟨some env, some pk, k⟩ :
          ServerRegistration S Rp).toBytes P).length =
          P.scalarLen + P.keyLen + rkrWithNonceSize P := by
        simp [ServerRegistration.toBytes, hsk, hpk, hrkr]
        omega
      have hne : ((⟨some env, some pk, k⟩ :
          ServerRegistration S Rp).toBytes P).length ≠ P.scalarLen := by
        rw [hblen]
        omega
      have e1 : ((⟨some env, some pk, k⟩ :
          ServerRegistration S Rp).toBytes P).take P.scalarLen =
          P.scalarAsBytes k := by
        rw [show (⟨some env, some pk, k⟩ :
            ServerRegistration S Rp).toBytes P =
            P.scalarAsBytes k ++ (P.reprToArr pk ++ env.toBytes) from by
          simp [ServerRegistration.toBytes]]
        exact take_append_len _ _ _ hsk
      have e2 : (((⟨some env, some pk, k⟩ :
          ServerRegistration S Rp).toBytes P).drop P.scalarLen).take P.keyLen =
          P.reprToArr pk := by
        rw [show (⟨some env, some pk, k⟩ :
            ServerRegistration S Rp).toBytes P =
            P.scalarAsBytes k ++ (P.reprToArr pk ++ env.toBytes) from by
          simp [ServerRegistration.toBytes]]
        rw [drop_append_len _ _ _ hsk]
        exact take_append_len _ _ _ hpk
      have e3 : ((⟨some env, some pk, k⟩ :
          ServerRegistration S Rp).toBytes P).drop
            (((⟨some env, some pk, k⟩ :
              ServerRegistration S Rp).toBytes P).length - rkrWithNonceSize P) =
          env.toBytes := by
        rw [hblen]
        rw [show (⟨some env, some pk, k⟩ :
            ServerRegistration S Rp).toBytes P =
            (P.scalarAsBytes k ++ P.reprToArr pk) ++ env.toBytes from by
          simp [ServerRegistration.toBytes]]
        have : P.scalarLen + P.keyLen + rkrWithNonceSize P - rkrWithNonceSize P =
            P.scalarLen + P.keyLen := by omega
        rw [this]
        exact drop_append_len _ _ _ (by simp [hsk, hpk])
      unfold ServerRegistration.tryFrom
      rw [if_neg hne]
      simp only [check_slice_size]
      rw [if_pos (by rw [hblen]; omega)]
      simp only [liftE_ok, Outcome.bind_ok]
      rw [e1, hScalarRT]
      simp only [liftE_ok, Outcome.bind_ok]
      rw [e2, hReprRT]
      simp only [liftE_ok, Outcome.bind_ok, check_public_key, hval, if_true]
      rw [e3, rkrFromBytes_toBytes P _ henv]
      simp [liftE, Outcome.bind]
  case sl =>
    intro st hke2
    unfold ServerLogin.tryFrom ServerLogin.toBytes
    rw [ke2State_roundtrip P _ hke2]
    simp [liftE, Outcome.bind]

end RoundTrip

/-- C7 (witness): the round-trip evaluated at one concrete value of every
message and state type of the test profile. -/
theorem serialize_deserialize_identity_witness :
    RegisterFirstMessage.tryFrom toyP
        ((⟨3⟩ : RegisterFirstMessage (Fin 7)).toBytes toyP) = Outcome.ok ⟨3⟩ ∧
    RegisterSecondMessage.tryFrom toyP
        ((⟨4⟩ : RegisterSecondMessage (Fin 7)).toBytes toyP) = Outcome.ok ⟨4⟩ ∧
    RegisterThirdMessage.tryFrom toyP
        ((⟨⟨[1], [2], [3]⟩, 4⟩ : RegisterThirdMessage Nat).toBytes toyP) =
      Outcome.ok ⟨⟨[1], [2], [3]⟩, 4⟩ ∧
    LoginFirstMessage.tryFrom toyP
        ((⟨5, ⟨[6], [7]⟩⟩ : LoginFirstMessage (Fin 7)).toBytes toyP) =
      Outcome.ok ⟨5, ⟨[6], [7]⟩⟩ ∧
    LoginSecondMessage.tryFrom toyP
        ((⟨6, ⟨[1], [2], [3]⟩, ⟨[4], [5], [6]⟩⟩ :
          LoginSecondMessage (Fin 7)).toBytes toyP) =
      Outcome.ok ⟨6, ⟨[1], [2], [3]⟩, ⟨[4], [5], [6]⟩⟩ ∧
    LoginThirdMessage.tryFrom toyP (⟨⟨[8]⟩⟩ : LoginThirdMessage).toBytes =
      Outcome.ok ⟨⟨[8]⟩⟩ ∧
    ClientRegistration.tryFrom toyP
        ((⟨2, [9, 9]⟩ : ClientRegistration (Fin 7)).toBytes toyP) =
      Outcome.ok ⟨2, [9, 9]⟩ ∧
    ClientLogin.tryFrom toyP
        ((⟨3, [8, 7], ⟨[1], [2]⟩⟩ : ClientLogin (Fin 7)).toBytes toyP) =
      Outcome.ok ⟨3, [8, 7], ⟨[1], [2]⟩⟩ ∧
    ServerRegistration.tryFrom toyP
        ((⟨some ⟨[1], [2], [3]⟩, some 4, 5⟩ :
          ServerRegistration (Fin 7) Nat).toBytes toyP) =
      Outcome.ok ⟨some ⟨[1], [2], [3]⟩, some 4, 5⟩ ∧
    ServerLogin.tryFrom toyP (⟨⟨[1], [2]⟩⟩ : ServerLogin).toBytes =
      Outcome.ok ⟨⟨[1], [2]⟩⟩ := by
  have h := serialize_deserialize_identity toyP
    (by decide) (by decide) (by decide) (by decide)
    (fun r => rfl) (fun r => rfl) (by decide)
  exact ⟨h.1 ⟨3⟩, h.2.1 ⟨4⟩,
    h.2.2.1 ⟨⟨[1], [2], [3]⟩, 4⟩ ⟨rfl, rfl, rfl⟩ (by decide),
    h.2.2.2.1 ⟨5, ⟨[6], [7]⟩⟩ ⟨rfl, rfl⟩,
    h.2.2.2.2.1 ⟨6, ⟨[1], [2], [3]⟩, ⟨[4], [5], [6]⟩⟩ ⟨rfl, rfl, rfl⟩ ⟨rfl, rfl, rfl⟩,
    h.2.2.2.2.2.1 ⟨⟨[8]⟩⟩ rfl,
    h.2.2.2.2.2.2.1 ⟨2, [9, 9]⟩,
    h.2.2.2.2.2.2.2.1 ⟨3, [8, 7], ⟨[1], [2]⟩⟩ ⟨rfl, rfl⟩,
    h.2.2.2.2.2.2.2.2.1 ⟨some ⟨[1], [2], [3]⟩, some 4, 5⟩
      (Or.inr ⟨⟨[1], [2], [3]⟩, 4, rfl, rfl, ⟨rfl, rfl, rfl⟩, by decide⟩),
    h.2.2.2.2.2.2.2.2.2 ⟨⟨[1], [2]⟩⟩ ⟨rfl, rfl⟩⟩
